import Mathlib

/-!
# Cancionero: the song catalog backend and its client

A shallow embedding of `backend/index.js`: the five Express route handlers over
the PostgreSQL table `canciones`, together with the part of the table's
behaviour that the handlers' SQL statements rely on (the `SERIAL PRIMARY KEY`
column, the `NOT NULL` columns, integer input of the `id` parameter).

The table is state passed explicitly: every handler takes the database before
the request and returns the response together with the database after it.
Whether the pool reaches the server is an input of each request (`Enlace`), so
a run of requests may meet an outage at any point.

Scope. Texts are Unicode strings, the database is taken to store Unicode (UTF8,
the default), and the server refuses a text parameter that holds the character
U+0000. The `id` path parameter is the text Express hands
over in `solicitud.params`; every server reads a decimal literal the same way,
and what else a server reads as an integer depends on its version (`Servidor`).

The client is embedded as well: the state cells of `frontend/App.js` with the
updates its handlers and `fetchCanciones` make, React's rule for running an
effect again, and the open state of `Dialog` in `components/ui/dialog.js`.
-/

namespace Cancionero

/-! ## Data model -/

/-- A row of the table `canciones` (`consultaCrearTabla`): `id SERIAL PRIMARY KEY`,
`titulo TEXT NOT NULL`, `artista TEXT NOT NULL`, `letra TEXT` (nullable). -/
structure Cancion where
  id : Int
  titulo : String
  artista : String
  letra : Option String
  deriving DecidableEq, Repr

/-- Largest value of the 32-bit `integer` type behind `SERIAL`. -/
def INT4_MAX : Int := 2147483647

/-- Smallest value of the 32-bit `integer` type behind `SERIAL`. -/
def INT4_MIN : Int := -2147483648

/-- The database as the handlers see it: the rows of `canciones` and the last
value handed out by the sequence that `SERIAL` attaches to `id` (0 before the
first `nextval`). -/
structure BaseDatos where
  filas : List Cancion
  secuencia : Nat
  deriving DecidableEq, Repr

/-- The table right after `inicializarBaseDatos` created it: no rows, sequence unused. -/
def vacia : BaseDatos := ⟨[], 0⟩

/-- A value read from the parsed JSON body (`solicitud.body`) by destructuring:
`indefinido` is a property that is absent. Numbers are the safe integers, a sign and
a magnitude below 2^53, which JavaScript holds exactly and prints in plain decimal
(minus zero prints as zero); arrays and objects (always truthy, sent by the driver as
a text that starts with an opening brace) are not part of this type. -/
inductive ValorJS where
  | indefinido
  | nulo
  | booleano (b : Bool)
  | numero (negativo : Bool) (magnitud : Fin 9007199254740992)
  | texto (s : String)
  deriving DecidableEq, Repr

/-- The destructured request body `const { titulo, artista, letra } = solicitud.body`. -/
structure CuerpoSolicitud where
  titulo : ValorJS
  artista : ValorJS
  letra : ValorJS
  deriving DecidableEq, Repr

/-- The integer a number stands for. -/
def valorNumero (negativo : Bool) (magnitud : Fin 9007199254740992) : Int :=
  if negativo then -(magnitud.val : Int) else (magnitud.val : Int)

/-- JavaScript truthiness, the test behind `!titulo` and `!artista`. -/
def esVerdadero : ValorJS → Bool
  | .indefinido => false
  | .nulo => false
  | .booleano b => b
  | .numero _ magnitud => magnitud.val != 0
  | .texto s => s != ""

/-- The driver's conversion of a query parameter: `null` and `undefined` are sent
as SQL NULL, everything else as its `toString()` text. -/
def prepareValue : ValorJS → Option String
  | .indefinido => none
  | .nulo => none
  | .booleano b => some (if b then "true" else "false")
  | .numero negativo magnitud => some (toString (valorNumero negativo magnitud))
  | .texto s => some s

/-- The character U+0000, which a PostgreSQL text cannot hold. -/
def NUL : Char := Char.ofNat 0

/-- The text holds no U+0000. -/
def sinNulo (s : String) : Bool := s.toList.all (fun c => c != NUL)

/-- A parameter the server accepts as text at bind: SQL NULL, or a text without
U+0000. -/
def parametroAdmitido : Option String → Bool
  | none => true
  | some s => sinNulo s

/-- The three text parameters made from the body are accepted by the server. -/
def cuerpoAdmitido (cuerpo : CuerpoSolicitud) : Bool :=
  parametroAdmitido (prepareValue cuerpo.titulo) &&
    parametroAdmitido (prepareValue cuerpo.artista) &&
    parametroAdmitido (prepareValue cuerpo.letra)

/-! ## Integer input of the `id` parameter -/

/-- Whitespace accepted around an integer literal. -/
def esEspacio (c : Char) : Bool :=
  c == ' ' || c == '\t' || c == '\n' || c == '\r' || c.toNat == 11 || c.toNat == 12

/-- Reads a run of decimal digits, most significant first, onto the accumulator. -/
def leerDigitos : Nat → List Char → Nat × List Char
  | acc, [] => (acc, [])
  | acc, c :: cs =>
    if c.isDigit then leerDigitos (acc * 10 + (c.toNat - '0'.toNat)) cs else (acc, c :: cs)

/-- The reading of a decimal literal as a 32-bit integer, the same in every version
of the server: optional blanks, an optional sign, at least one decimal digit,
optional blanks, and a value within 32 bits. -/
def int4in (s : String) : Option Int :=
  let cs := s.toList.dropWhile esEspacio
  let (negativo, cs) :=
    match cs with
    | '-' :: r => (true, r)
    | '+' :: r => (false, r)
    | r => (false, r)
  match cs with
  | [] => none
  | c :: _ =>
    if c.isDigit then
      let (n, resto) := leerDigitos 0 cs
      let v : Int := if negativo then -(n : Int) else (n : Int)
      if resto.all esEspacio && INT4_MIN ≤ v && v ≤ INT4_MAX then some v else none
    else none

/-- The server behind the pool, as far as the version can be told from the handlers:
how it reads as an integer a text that is not a decimal literal. PostgreSQL up to
version 15 reads no such text; from version 16 on it also reads the literals that
start with `0x`, `0o` and `0b` and the underscore as a separator of digits. -/
structure Servidor where
  extension : String → Option Int

/-- A server that reads decimal literals only. -/
def servidorDecimal : Servidor := ⟨fun _ => none⟩

/-- A server that, besides decimal literals, reads the hexadecimal literal `0x1F`
as 31 and the separated literal `1_000` as 1000. -/
def servidorExtendido : Servidor :=
  ⟨fun s => if s = "0x1F" then some 31 else if s = "1_000" then some 1000 else none⟩

/-- The text has the form of a decimal literal, whatever its value: optional blanks,
an optional sign, at least one decimal digit, optional blanks. -/
def formaDecimal (s : String) : Bool :=
  let cs := s.toList.dropWhile esEspacio
  let cs :=
    match cs with
    | '-' :: r => r
    | '+' :: r => r
    | r => r
  match cs with
  | [] => false
  | c :: _ => c.isDigit && (leerDigitos 0 cs).2.all esEspacio

/-- The server's reading of a text parameter compared with the `integer` column
`id`. A text that holds U+0000 is refused. A decimal literal is read as `int4in`
reads it, and refused by every version when its value is out of 32 bits. Another
text is read as the extension of the server reads it, within 32 bits; no version
reads a text that has no decimal digit. Anything else is an input error. -/
def leerId (srv : Servidor) (s : String) : Option Int :=
  if sinNulo s then
    match int4in s with
    | some i => some i
    | none =>
      if formaDecimal s then none
      else if s.toList.any Char.isDigit then
        match srv.extension s with
        | some v => if INT4_MIN ≤ v ∧ v ≤ INT4_MAX then some v else none
        | none => none
      else none
  else none

/-! ## The storage layer: `poolConexion.query` -/

/-- Whether the pool reaches the server for the request at hand, and which server
it reaches. -/
inductive Enlace where
  | operativo (srv : Servidor)
  | caido

/-- What makes a query throw. -/
inductive ErrorBD where
  | conexion
  | textoInvalido
  | enteroInvalido
  | secuenciaAgotada
  | claveDuplicada
  | valorNulo
  deriving DecidableEq, Repr

/-- The five SQL statements of the handlers, with their parameters as the driver
sends them. -/
inductive Consulta where
  /-- `SELECT * FROM canciones ORDER BY id` -/
  | seleccionarTodas
  /-- `SELECT * FROM canciones WHERE id = $1` -/
  | seleccionarPorId (id : String)
  /-- `INSERT INTO canciones (titulo, artista, letra) VALUES ($1, $2, $3) RETURNING *` -/
  | insertar (titulo artista letra : Option String)
  /-- `UPDATE canciones SET titulo = $1, artista = $2, letra = $3 WHERE id = $4 RETURNING *` -/
  | actualizar (titulo artista letra : Option String) (id : String)
  /-- `DELETE FROM canciones WHERE id = $1 RETURNING *` -/
  | eliminar (id : String)
  deriving DecidableEq, Repr

/-- Order of `ORDER BY id`. -/
def ordenId (a b : Cancion) : Prop := a.id ≤ b.id

instance : DecidableRel ordenId := fun a b => inferInstanceAs (Decidable (a.id ≤ b.id))

instance : IsTotal Cancion ordenId := ⟨fun a b => Int.le_total a.id b.id⟩

instance : IsTrans Cancion ordenId := ⟨fun _ _ _ h1 h2 => Int.le_trans h1 h2⟩

/-- Rows whose `id` equals the given integer (`WHERE id = $n`). -/
def conId (i : Int) (filas : List Cancion) : List Cancion :=
  filas.filter (fun c => c.id == i)

/-- Rows whose `id` differs from the given integer. -/
def sinId (i : Int) (filas : List Cancion) : List Cancion :=
  filas.filter (fun c => c.id != i)

/-- The text parameters of a statement, in the order of their placeholders. -/
def parametros : Consulta → List (Option String)
  | .seleccionarTodas => []
  | .seleccionarPorId id => [some id]
  | .insertar titulo artista letra => [titulo, artista, letra]
  | .actualizar titulo artista letra id => [titulo, artista, letra, some id]
  | .eliminar id => [some id]

/-- The execution of a statement whose parameters the server has accepted as texts:
the rows it returns, or the error it throws, and the database afterwards. The
constraints are those of `consultaCrearTabla`: `id` takes the next value of its 32-bit
sequence (`SERIAL`) and must be new (`PRIMARY KEY`), `titulo` and `artista` refuse NULL
(`NOT NULL`), and a text compared with `id` is read as an integer. A statement that
fails changes no row; a value drawn from the sequence is not given back. An UPDATE
that matches no row checks no value. -/
def ejecutarSentencia (srv : Servidor) (bd : BaseDatos) :
    Consulta → Except ErrorBD (List Cancion) × BaseDatos
  | .seleccionarTodas => (.ok (bd.filas.insertionSort ordenId), bd)
  | .seleccionarPorId id =>
    match leerId srv id with
    | none => (.error .enteroInvalido, bd)
    | some i => (.ok (conId i bd.filas), bd)
  | .insertar titulo artista letra =>
    if (bd.secuencia : Int) < INT4_MAX then
      let nuevoId : Int := (bd.secuencia : Int) + 1
      let bd1 : BaseDatos := ⟨bd.filas, bd.secuencia + 1⟩
      match titulo, artista with
      | some t, some a =>
        if bd.filas.any (fun c => c.id == nuevoId) then (.error .claveDuplicada, bd1)
        else
          let fila : Cancion := ⟨nuevoId, t, a, letra⟩
          (.ok [fila], ⟨bd.filas ++ [fila], bd.secuencia + 1⟩)
      | _, _ => (.error .valorNulo, bd1)
    else (.error .secuenciaAgotada, bd)
  | .actualizar titulo artista letra id =>
    match leerId srv id with
    | none => (.error .enteroInvalido, bd)
    | some i =>
      if (conId i bd.filas).isEmpty then (.ok [], bd)
      else
        match titulo, artista with
        | some t, some a =>
          let nueva (c : Cancion) : Cancion := ⟨c.id, t, a, letra⟩
          (.ok ((conId i bd.filas).map nueva),
            ⟨bd.filas.map (fun c => if c.id == i then nueva c else c), bd.secuencia⟩)
        | _, _ => (.error .valorNulo, bd)
  | .eliminar id =>
    match leerId srv id with
    | none => (.error .enteroInvalido, bd)
    | some i => (.ok (conId i bd.filas), ⟨sinId i bd.filas, bd.secuencia⟩)

/-- The call `poolConexion.query(sql, params)`: the rows of the result, or the error
thrown, and the database afterwards. With the link down nothing reaches the server.
With the link up the server first takes the parameters as texts, refusing the
statement, before any of it runs, when one of them holds U+0000; then the statement
is executed. -/
def poolConexion_query (enlace : Enlace) (bd : BaseDatos) (q : Consulta) :
    Except ErrorBD (List Cancion) × BaseDatos :=
  match enlace with
  | .caido => (.error .conexion, bd)
  | .operativo srv =>
    if (parametros q).all parametroAdmitido then ejecutarSentencia srv bd q
    else (.error .textoInvalido, bd)

/-! ## The HTTP boundary -/

/-- Body of a response, as passed to `respuesta.json`. -/
inductive Cuerpo where
  /-- A JSON array of songs. -/
  | canciones (filas : List Cancion)
  /-- One song. -/
  | cancion (c : Cancion)
  /-- The object with the single field `error`. -/
  | error (texto : String)
  /-- The object with the single field `mensaje`. -/
  | mensaje (texto : String)
  /-- The value `undefined`: `rows[0]` of an empty result. -/
  | indefinido
  deriving DecidableEq, Repr

/-- Status code and body of a response. -/
structure Respuesta where
  estado : Nat
  cuerpo : Cuerpo
  deriving DecidableEq, Repr

/-- The response of every `catch` block. -/
def errorInterno : Respuesta := ⟨500, .error "Error interno del servidor"⟩

/-- The response for an id that selects no row. -/
def noEncontrada : Respuesta := ⟨404, .error "Canción no encontrada"⟩

/-- The response of the validation of `titulo` and `artista`. -/
def datosObligatorios : Respuesta := ⟨400, .error "Título y artista son obligatorios"⟩

/-- The value of `resultado.rows[0]` as a response body. -/
def primeraFila : List Cancion → Cuerpo
  | [] => .indefinido
  | c :: _ => .cancion c

/-- Handler of `GET /api/canciones` (`index.js`, lines 44-52). -/
def get_api_canciones (enlace : Enlace) (bd : BaseDatos) : Respuesta × BaseDatos :=
  match poolConexion_query enlace bd .seleccionarTodas with
  | (.ok filas, bd1) => (⟨200, .canciones filas⟩, bd1)
  | (.error _, bd1) => (errorInterno, bd1)

/-- Handler of `GET /api/canciones/:id` (lines 55-69). -/
def get_api_canciones_id (enlace : Enlace) (bd : BaseDatos) (id : String) :
    Respuesta × BaseDatos :=
  match poolConexion_query enlace bd (.seleccionarPorId id) with
  | (.ok filas, bd1) =>
    if filas.length = 0 then (noEncontrada, bd1) else (⟨200, primeraFila filas⟩, bd1)
  | (.error _, bd1) => (errorInterno, bd1)

/-- Handler of `POST /api/canciones` (lines 72-90): the validation comes before the
`try` block and returns without a query. -/
def post_api_canciones (enlace : Enlace) (bd : BaseDatos) (cuerpo : CuerpoSolicitud) :
    Respuesta × BaseDatos :=
  if !esVerdadero cuerpo.titulo || !esVerdadero cuerpo.artista then (datosObligatorios, bd)
  else
    match poolConexion_query enlace bd
        (.insertar (prepareValue cuerpo.titulo) (prepareValue cuerpo.artista)
          (prepareValue cuerpo.letra)) with
    | (.ok filas, bd1) => (⟨201, primeraFila filas⟩, bd1)
    | (.error _, bd1) => (errorInterno, bd1)

/-- Handler of `PUT /api/canciones/:id` (lines 93-117): the validation comes before
the `try` block and returns without a query. -/
def put_api_canciones_id (enlace : Enlace) (bd : BaseDatos) (id : String)
    (cuerpo : CuerpoSolicitud) : Respuesta × BaseDatos :=
  if !esVerdadero cuerpo.titulo || !esVerdadero cuerpo.artista then (datosObligatorios, bd)
  else
    match poolConexion_query enlace bd
        (.actualizar (prepareValue cuerpo.titulo) (prepareValue cuerpo.artista)
          (prepareValue cuerpo.letra) id) with
    | (.ok filas, bd1) =>
      if filas.length = 0 then (noEncontrada, bd1) else (⟨200, primeraFila filas⟩, bd1)
    | (.error _, bd1) => (errorInterno, bd1)

/-- Handler of `DELETE /api/canciones/:id` (lines 120-135). -/
def delete_api_canciones_id (enlace : Enlace) (bd : BaseDatos) (id : String) :
    Respuesta × BaseDatos :=
  match poolConexion_query enlace bd (.eliminar id) with
  | (.ok filas, bd1) =>
    if filas.length = 0 then (noEncontrada, bd1)
    else (⟨200, .mensaje "Canción eliminada correctamente"⟩, bd1)
  | (.error _, bd1) => (errorInterno, bd1)

/-! ## Requests and runs -/

/-- A request to one of the five routes. -/
inductive Peticion where
  | listar
  | obtener (id : String)
  | crear (cuerpo : CuerpoSolicitud)
  | actualizar (id : String) (cuerpo : CuerpoSolicitud)
  | eliminar (id : String)
  deriving DecidableEq, Repr

/-- Dispatch of a request to its handler. -/
def atender (enlace : Enlace) (bd : BaseDatos) : Peticion → Respuesta × BaseDatos
  | .listar => get_api_canciones enlace bd
  | .obtener id => get_api_canciones_id enlace bd id
  | .crear cuerpo => post_api_canciones enlace bd cuerpo
  | .actualizar id cuerpo => put_api_canciones_id enlace bd id cuerpo
  | .eliminar id => delete_api_canciones_id enlace bd id

/-- Runs a sequence of requests, each with its own link condition, and collects
the responses in order. -/
def ejecutar : BaseDatos → List (Enlace × Peticion) → List Respuesta × BaseDatos
  | bd, [] => ([], bd)
  | bd, (enlace, p) :: resto =>
    let (r, bd1) := atender enlace bd p
    let (rs, bd2) := ejecutar bd1 resto
    (r :: rs, bd2)

/-- The database after a run. -/
def estadoTras (bd : BaseDatos) (ps : List (Enlace × Peticion)) : BaseDatos :=
  (ejecutar bd ps).2

/-- The id assigned by a request, when it is a create answered with 201 and a song. -/
def idAsignado : Peticion → Respuesta → Option Int
  | .crear _, ⟨201, .cancion c⟩ => some c.id
  | _, _ => none

/-- The ids assigned by the successful creates of a run, in the order of the run. -/
def idsAsignados : BaseDatos → List (Enlace × Peticion) → List Int
  | _, [] => []
  | bd, (enlace, p) :: resto =>
    let (r, bd1) := atender enlace bd p
    match idAsignado p r with
    | some i => i :: idsAsignados bd1 resto
    | none => idsAsignados bd1 resto

/-- The ids of the stored songs. -/
def ids (bd : BaseDatos) : List Int := bd.filas.map (·.id)

/-- The primary key of the table: no two rows share an id. -/
def ClavePrimaria (bd : BaseDatos) : Prop := (ids bd).Nodup

instance (bd : BaseDatos) : Decidable (ClavePrimaria bd) :=
  inferInstanceAs (Decidable (ids bd).Nodup)

/-- The sequence is ahead of the table: every stored id was drawn from it. -/
def SecuenciaAdelantada (bd : BaseDatos) : Prop := ∀ c ∈ bd.filas, c.id ≤ (bd.secuencia : Int)

instance (bd : BaseDatos) : Decidable (SecuenciaAdelantada bd) :=
  inferInstanceAs (Decidable (∀ c ∈ bd.filas, c.id ≤ (bd.secuencia : Int)))

/-- A body that passes the validation with text fields: non-empty `titulo` and
`artista`, and `letra` a text or absent. -/
def cuerpoTexto (t a : String) (l : Option String) : CuerpoSolicitud :=
  ⟨.texto t, .texto a, match l with | some s => .texto s | none => .indefinido⟩

/-- What the handlers keep true of the table: every row has a non-empty `titulo` and
`artista`, no two rows share an id, and every id was drawn from the sequence. -/
def Invariante (bd : BaseDatos) : Prop :=
  (∀ c ∈ bd.filas, c.titulo ≠ "" ∧ c.artista ≠ "") ∧ ClavePrimaria bd ∧ SecuenciaAdelantada bd

/-! ## The client: `frontend/App.js` -/

/-- The text given to `setError` in the `catch` of `fetchCanciones`. -/
def mensajeError : String := "Failed to load songs. Please try again later."

/-- The five `useState` cells of the component `App`. -/
structure App where
  canciones : List Cancion
  loading : Bool
  error : Option String
  selectedSong : Option Cancion
  modalVisible : Bool
  deriving DecidableEq, Repr

/-- The initial values of the five `useState` calls (lines 14-18). -/
def App.inicial : App := ⟨[], true, none, none, false⟩

/-- The mounted component: its state and the number of requests to the list route
that `fetchCanciones` has issued so far. -/
structure Cliente where
  app : App
  peticiones : Nat
  deriving DecidableEq, Repr

/-- The dependency array of the `useEffect` of `App`: the empty array of line 50,
whatever the state. -/
def dependencias (_ : App) : List ValorJS := []

/-- React's rule for an effect with a dependency array, on a render after the first:
the effect runs again when the array differs from the one of the previous render. -/
def efectoSeRepite (antes ahora : App) : Bool := dependencias antes != dependencias ahora

/-- A state update and the render it causes: the new state is shown and, when the
effect runs again, `fetchCanciones` is called once more. -/
def renderizar (c : Cliente) (nuevo : App) : Cliente :=
  ⟨nuevo, if efectoSeRepite c.app nuevo then c.peticiones + 1 else c.peticiones⟩

/-- The first render: the initial state, and the effect runs once, calling
`fetchCanciones` and setting the 30 second interval. -/
def montar : Cliente := ⟨App.inicial, 1⟩

/-- The updates of `fetchCanciones` after an ok response whose JSON is `data`:
`setCanciones(data)`, then `setLoading(false)` in `finally`. -/
def fetchCanciones_ok (data : List Cancion) (st : App) : App :=
  { st with canciones := data, loading := false }

/-- The updates of `fetchCanciones` when the fetch rejects, the response is not ok or
its JSON cannot be read: `setError` in `catch`, then `setLoading(false)` in `finally`. -/
def fetchCanciones_error (st : App) : App :=
  { st with error := some mensajeError, loading := false }

/-- The `onPress` of the 'Try Again' button (lines 84-88). -/
def onPressTryAgain (st : App) : App :=
  { st with error := none, loading := true }

/-- `handleOpenSongDetail(song)` (lines 53-56). -/
def handleOpenSongDetail (song : Cancion) (st : App) : App :=
  { st with selectedSong := some song, modalVisible := true }

/-- `handleCloseSongDetail()` (lines 59-62). -/
def handleCloseSongDetail (st : App) : App :=
  { st with modalVisible := false, selectedSong := none }

/-- What can happen to the mounted component. -/
inductive Evento where
  /-- The interval fires and calls `fetchCanciones`. -/
  | intervalo
  /-- A pending `fetchCanciones` receives an ok response with this JSON. -/
  | respuestaOk (data : List Cancion)
  /-- A pending `fetchCanciones` fails. -/
  | respuestaFallida
  /-- The 'Try Again' button is pressed. -/
  | tryAgain
  /-- A song card is pressed. -/
  | abrirDetalle (song : Cancion)
  /-- The modal is closed, by its button or by `onRequestClose`. -/
  | cerrarDetalle
  deriving DecidableEq, Repr

/-- One event on the mounted component. -/
def paso (c : Cliente) : Evento → Cliente
  | .intervalo => ⟨c.app, c.peticiones + 1⟩
  | .respuestaOk data => renderizar c (fetchCanciones_ok data c.app)
  | .respuestaFallida => renderizar c (fetchCanciones_error c.app)
  | .tryAgain => renderizar c (onPressTryAgain c.app)
  | .abrirDetalle song => renderizar c (handleOpenSongDetail song c.app)
  | .cerrarDetalle => renderizar c (handleCloseSongDetail c.app)

/-- A sequence of events, in order. -/
def correr (c : Cliente) (es : List Evento) : Cliente := es.foldl paso c

/-- The three returns of the render of `App`. -/
inductive Vista where
  | cargando
  | pantallaError
  | lista
  deriving DecidableEq, Repr

/-- JavaScript truthiness of the `error` cell, the test `if (error)`. -/
def errorVerdadero : Option String → Bool
  | none => false
  | some s => s != ""

/-- The view the render selects (lines 65-96). -/
def vista (st : App) : Vista :=
  if st.loading then .cargando
  else if errorVerdadero st.error then .pantallaError
  else .lista

/-- The `error` cell holds null or the one message the component sets. -/
def ErrorConocido (c : Cliente) : Prop :=
  c.app.error = none ∨ c.app.error = some mensajeError

/-- The modal is visible exactly when a song is selected. -/
def ModalCoherente (c : Cliente) : Prop :=
  c.app.modalVisible = true ↔ c.app.selectedSong ≠ none

/-! ## The client: `components/ui/dialog.js` -/

/-- One `Dialog`: the prop `open` (named `propOpen` in the component, `indefinido`
when not passed), whether the prop `onOpenChange` holds a function, and the state
cell `internalOpen`. -/
structure Dialog where
  propOpen : ValorJS
  onOpenChange : Bool
  internalOpen : Bool
  deriving DecidableEq, Repr

/-- A `Dialog` at its first render: `useState(false)`. -/
def Dialog.inicial (propOpen : ValorJS) (onOpenChange : Bool) : Dialog :=
  ⟨propOpen, onOpenChange, false⟩

/-- `const isControlled = propOpen !== undefined`. -/
def isControlled (d : Dialog) : Bool := d.propOpen != .indefinido

/-- The constant `open` of the component: `isControlled ? propOpen : internalOpen`. -/
def Dialog.abierto (d : Dialog) : ValorJS :=
  if isControlled d then d.propOpen else .booleano d.internalOpen

/-- `handleOpenChange(newValue)`: the `Dialog` afterwards and the values with which
`onOpenChange` was called. -/
def handleOpenChange (d : Dialog) (newValue : Bool) : Dialog × List Bool :=
  if d.onOpenChange then (d, [newValue])
  else if !isControlled d then ({ d with internalOpen := newValue }, [])
  else (d, [])

/-! ## Decimal rendering and integer input -/

theorem digitChar_isDigit (k : Nat) (h : k < 10) :
    (Nat.digitChar k).isDigit = true ∧ (Nat.digitChar k).toNat - '0'.toNat = k := by
  interval_cases k <;> decide

theorem digitChar_noEspacio (k : Nat) (h : k < 10) : esEspacio (Nat.digitChar k) = false ∧ Nat.digitChar k ≠ '-' ∧ Nat.digitChar k ≠ '+' := by
  interval_cases k <;> decide

theorem leerDigitos_append (pre : List Char) (hpre : ∀ c ∈ pre, c.isDigit = true) :
    ∀ (acc : Nat) (d : Char), d.isDigit = true →
      leerDigitos acc (pre ++ [d]) =
        ((leerDigitos acc pre).1 * 10 + (d.toNat - '0'.toNat), []) := by
  induction pre with
  | nil => intro acc d hd; simp [leerDigitos, hd]
  | cons c cs ih =>
    intro acc d hd
    have hc : c.isDigit = true := hpre c (by simp)
    simp only [List.cons_append, leerDigitos, hc, if_true]
    exact ih (fun x hx => hpre x (by simp [hx])) _ d hd

theorem toDigitsCore_lectura : ∀ (fuel n : Nat) (ds : List Char), n < fuel →
    ∃ pre : List Char, Nat.toDigitsCore 10 fuel n ds = pre ++ ds ∧ pre ≠ [] ∧
      (∀ c ∈ pre, c.isDigit = true ∧ esEspacio c = false ∧ c ≠ '-' ∧ c ≠ '+') ∧
      ∀ acc, leerDigitos acc pre = (acc * 10 ^ pre.length + n, []) := by
  intro fuel
  induction fuel with
  | zero => intro n ds h; omega
  | succ f ih =>
    intro n ds h
    have hd := digitChar_isDigit (n % 10) (Nat.mod_lt _ (by decide))
    have hd2 := digitChar_noEspacio (n % 10) (Nat.mod_lt _ (by decide))
    unfold Nat.toDigitsCore
    by_cases h0 : n / 10 = 0
    · refine ⟨[Nat.digitChar (n % 10)], by simp [h0], by simp, ?_, ?_⟩
      · intro c hc
        simp at hc
        subst hc
        exact ⟨hd.1, hd2⟩
      · intro acc
        have hn : n % 10 = n := by omega
        rw [hn] at hd
        simp only [leerDigitos, hn, hd.1, hd.2, if_true, List.length_singleton, pow_one]
    · obtain ⟨pre, h1, h2, h3, h4⟩ := ih (n / 10) (Nat.digitChar (n % 10) :: ds) (by omega)
      refine ⟨pre ++ [Nat.digitChar (n % 10)], by simp [h0, h1], by simp, ?_, ?_⟩
      · intro c hc
        rcases List.mem_append.1 hc with hc | hc
        · exact h3 c hc
        · simp at hc
          subst hc
          exact ⟨hd.1, hd2⟩
      · intro acc
        rw [leerDigitos_append pre (fun c hc => (h3 c hc).1) acc _ hd.1, h4 acc, hd.2]
        have e := Nat.div_add_mod n 10
        simp only [List.length_append, List.length_singleton, pow_succ, Prod.mk.injEq, and_true]
        linarith

theorem int4in_toString (n : Nat) (h : (n : Int) ≤ INT4_MAX) :
    int4in (toString (n : Int)) = some (n : Int) := by
  obtain ⟨pre, h1, h2, h3, h4⟩ := toDigitsCore_lectura (n + 1) n [] (by omega)
  have hs : (toString (n : Int)).toList = pre := by
    show (Nat.toDigits 10 n) = pre
    simpa [Nat.toDigits] using h1
  cases pre with
  | nil => exact absurd rfl h2
  | cons c cs =>
    have hc := h3 c (by simp)
    have h5 := h4 0
    have hdw : (c :: cs).dropWhile esEspacio = c :: cs := by
      simp [List.dropWhile, hc.2.1]
    have hm : (match c :: cs with
        | '-' :: r => (true, r)
        | '+' :: r => (false, r)
        | r => (false, r)) = (false, c :: cs) := by
      split
      · rename_i heq; simp at heq; exact absurd heq.1 hc.2.2.1
      · rename_i heq; simp at heq; exact absurd heq.1 hc.2.2.2
      · rfl
    unfold int4in
    simp only [hs, hdw, hm, hc.1, h5, if_true]
    simp [INT4_MIN, h]
    omega

theorem digito_no_nulo (c : Char) (h : c.isDigit = true) : (c != NUL) = true := by
  rw [bne_iff_ne]
  intro hc
  rw [hc] at h
  exact absurd h (by decide)

theorem espacio_no_nulo (c : Char) (h : esEspacio c = true) : (c != NUL) = true := by
  rw [bne_iff_ne]
  intro hc
  rw [hc] at h
  exact absurd h (by decide)

theorem sinNulo_toString (n : Nat) : sinNulo (toString (n : Int)) = true := by
  obtain ⟨pre, h1, -, h3, -⟩ := toDigitsCore_lectura (n + 1) n [] (by omega)
  have hs : (toString (n : Int)).toList = pre := by
    show (Nat.toDigits 10 n) = pre
    simpa [Nat.toDigits] using h1
  unfold sinNulo
  rw [hs, List.all_eq_true]
  intro c hc
  exact digito_no_nulo c (h3 c hc).1

theorem leerDigitos_resto : ∀ (cs : List Char) (acc : Nat),
    ∃ pre, cs = pre ++ (leerDigitos acc cs).2 ∧ ∀ c ∈ pre, c.isDigit = true := by
  intro cs
  induction cs with
  | nil => intro acc; exact ⟨[], rfl, fun c hc => by simp at hc⟩
  | cons c cs ih =>
    intro acc
    by_cases hc : c.isDigit = true
    · obtain ⟨pre, h1, h2⟩ := ih (acc * 10 + (c.toNat - '0'.toNat))
      refine ⟨c :: pre, ?_, ?_⟩
      · simp only [leerDigitos, hc, if_true, List.cons_append]
        rw [← h1]
      · intro x hx
        rcases List.mem_cons.1 hx with hx | hx
        · rw [hx]; exact hc
        · exact h2 x hx
    · refine ⟨[], ?_, fun x hx => by simp at hx⟩
      simp [leerDigitos, hc]

/-- A text that `int4in` reads is made of blanks, a sign and decimal digits, and has
a digit. -/
theorem int4in_caracteres (s : String) (i : Int) (h : int4in s = some i) :
    (∀ c ∈ s.toList, esEspacio c = true ∨ c = '-' ∨ c = '+' ∨ c.isDigit = true) ∧
    ∃ c ∈ s.toList, c.isDigit = true := by
  have hsplit : s.toList = s.toList.takeWhile esEspacio ++ s.toList.dropWhile esEspacio :=
    (List.takeWhile_append_dropWhile _ _).symm
  unfold int4in at h
  simp only at h
  generalize hsg : (match List.dropWhile esEspacio s.toList with
      | '-' :: r => (true, r)
      | '+' :: r => (false, r)
      | r => (false, r)) = sg at h
  have hdrop : ∀ c ∈ s.toList.dropWhile esEspacio, c = '-' ∨ c = '+' ∨ c ∈ sg.2 := by
    intro c hc
    split at hsg
    · rename_i r heq
      rw [heq] at hc
      rw [← hsg]
      rcases List.mem_cons.1 hc with hc | hc
      · exact Or.inl hc
      · exact Or.inr (Or.inr hc)
    · rename_i r heq
      rw [heq] at hc
      rw [← hsg]
      rcases List.mem_cons.1 hc with hc | hc
      · exact Or.inr (Or.inl hc)
      · exact Or.inr (Or.inr hc)
    · rw [← hsg]
      exact Or.inr (Or.inr hc)
  have hcola : (∀ c ∈ sg.2, esEspacio c = true ∨ c.isDigit = true) ∧
      ∃ c ∈ sg.2, c.isDigit = true := by
    cases hsg2 : sg.2 with
    | nil => rw [hsg2] at h; exact absurd h (by simp)
    | cons d ds =>
      rw [hsg2] at h
      simp only at h
      by_cases hd : d.isDigit = true
      · rw [if_pos hd] at h
        by_cases hall : (leerDigitos 0 (d :: ds)).2.all esEspacio = true
        · refine ⟨?_, d, by simp, hd⟩
          intro c hc
          obtain ⟨pre, h1, h2⟩ := leerDigitos_resto (d :: ds) 0
          rw [h1] at hc
          rcases List.mem_append.1 hc with hc | hc
          · exact Or.inr (h2 c hc)
          · exact Or.inl (List.all_eq_true.1 hall c hc)
        · rw [Bool.not_eq_true] at hall
          simp [hall] at h
      · rw [if_neg hd] at h
        exact absurd h (by simp)
  have hsub : ∀ c ∈ sg.2, c ∈ s.toList := by
    intro c hc
    rw [hsplit]
    refine List.mem_append.2 (Or.inr ?_)
    split at hsg
    · rename_i r heq
      rw [heq]
      rw [← hsg] at hc
      exact List.mem_cons_of_mem _ hc
    · rename_i r heq
      rw [heq]
      rw [← hsg] at hc
      exact List.mem_cons_of_mem _ hc
    · rw [← hsg] at hc
      exact hc
  refine ⟨?_, ?_⟩
  swap
  · obtain ⟨c, hc, hd⟩ := hcola.2
    exact ⟨c, hsub c hc, hd⟩
  intro c hc
  rw [hsplit] at hc
  rcases List.mem_append.1 hc with hc | hc
  · exact Or.inl (List.mem_takeWhile_imp hc)
  · rcases hdrop c hc with h1 | h1 | h1
    · exact Or.inr (Or.inl h1)
    · exact Or.inr (Or.inr (Or.inl h1))
    · rcases hcola.1 c h1 with h2 | h2
      · exact Or.inl h2
      · exact Or.inr (Or.inr (Or.inr h2))

theorem int4in_sinNulo (s : String) (i : Int) (h : int4in s = some i) : sinNulo s = true := by
  unfold sinNulo
  rw [List.all_eq_true]
  intro c hc
  rcases (int4in_caracteres s i h).1 c hc with h1 | h1 | h1 | h1
  · exact espacio_no_nulo c h1
  · rw [h1]; decide
  · rw [h1]; decide
  · exact digito_no_nulo c h1

/-- Every server reads a decimal literal as `int4in` reads it. -/
theorem leerId_decimal (srv : Servidor) (s : String) (i : Int) (h : int4in s = some i) :
    leerId srv s = some i := by
  simp [leerId, h, int4in_sinNulo s i h]

/-- A text that a server reads as an integer holds no U+0000. -/
theorem leerId_sinNulo (srv : Servidor) (s : String) (i : Int) (h : leerId srv s = some i) :
    sinNulo s = true := by
  by_contra hn
  simp [leerId, hn] at h

/-- No server reads a text without a decimal digit. -/
theorem leerId_sin_digito (srv : Servidor) (s : String)
    (h : s.toList.any Char.isDigit = false) : leerId srv s = none := by
  have h0 : int4in s = none := by
    cases hi : int4in s with
    | none => rfl
    | some i =>
      exfalso
      obtain ⟨c, hc, hd⟩ := (int4in_caracteres s i hi).2
      rw [List.any_eq_false] at h
      exact h c hc hd
  unfold leerId
  rw [h0]
  simp only [h, Bool.false_eq_true, if_false, ite_self]

theorem leerId_toString (srv : Servidor) (n : Nat) (h : (n : Int) ≤ INT4_MAX) :
    leerId srv (toString (n : Int)) = some (n : Int) :=
  leerId_decimal srv _ _ (int4in_toString n h)

/-! ## The handlers with the link up -/

theorem prepareValue_letra (t a : String) (l : Option String) :
    prepareValue (cuerpoTexto t a l).letra = l := by
  cases l <;> rfl

theorem valido_texto (t a : String) (l : Option String) (ht : t ≠ "") (ha : a ≠ "") :
    (!esVerdadero (cuerpoTexto t a l).titulo || !esVerdadero (cuerpoTexto t a l).artista)
      = false := by
  simp [cuerpoTexto, esVerdadero, ht, ha]

theorem cuerpoAdmitido_texto (t a : String) (l : Option String) :
    cuerpoAdmitido (cuerpoTexto t a l) = (sinNulo t && sinNulo a && parametroAdmitido l) := by
  simp only [cuerpoAdmitido, prepareValue_letra]
  rfl

theorem sin_colision {bd : BaseDatos} (h : SecuenciaAdelantada bd) :
    bd.filas.any (fun c => c.id == (bd.secuencia : Int) + 1) = false := by
  rw [List.any_eq_false]
  intro c hc
  have := h c hc
  simp only [beq_iff_eq]
  omega

/-- With the link up and parameters the server accepts, the statement is executed. -/
theorem query_admitida (srv : Servidor) (bd : BaseDatos) (q : Consulta)
    (h : (parametros q).all parametroAdmitido = true) :
    poolConexion_query (.operativo srv) bd q = ejecutarSentencia srv bd q := by
  simp only [poolConexion_query, h, if_true]

/-- With the link up and a parameter that holds U+0000, the statement is refused. -/
theorem query_rechazada (srv : Servidor) (bd : BaseDatos) (q : Consulta)
    (h : (parametros q).all parametroAdmitido = false) :
    poolConexion_query (.operativo srv) bd q = (.error .textoInvalido, bd) := by
  simp only [poolConexion_query, h, Bool.false_eq_true, if_false]

theorem parametros_seleccionar (tok : String) (h : sinNulo tok = true) :
    (parametros (.seleccionarPorId tok)).all parametroAdmitido = true := by
  have h1 : parametroAdmitido (some tok) = true := h
  simp only [parametros, List.all_cons, List.all_nil, h1, Bool.and_true]

theorem parametros_eliminar (tok : String) (h : sinNulo tok = true) :
    (parametros (.eliminar tok)).all parametroAdmitido = true := by
  have h1 : parametroAdmitido (some tok) = true := h
  simp only [parametros, List.all_cons, List.all_nil, h1, Bool.and_true]

theorem parametros_insertar (cuerpo : CuerpoSolicitud) (h : cuerpoAdmitido cuerpo = true) :
    (parametros (.insertar (prepareValue cuerpo.titulo) (prepareValue cuerpo.artista)
      (prepareValue cuerpo.letra))).all parametroAdmitido = true := by
  simp only [cuerpoAdmitido, Bool.and_eq_true] at h
  simp only [parametros, List.all_cons, List.all_nil, h.1.1, h.1.2, h.2, Bool.and_true]

theorem parametros_actualizar (cuerpo : CuerpoSolicitud) (tok : String)
    (h : cuerpoAdmitido cuerpo = true) (hn : sinNulo tok = true) :
    (parametros (.actualizar (prepareValue cuerpo.titulo) (prepareValue cuerpo.artista)
      (prepareValue cuerpo.letra) tok)).all parametroAdmitido = true := by
  have h1 : parametroAdmitido (some tok) = true := hn
  simp only [cuerpoAdmitido, Bool.and_eq_true] at h
  simp only [parametros, List.all_cons, List.all_nil, h.1.1, h.1.2, h.2, h1, Bool.and_true]

theorem insertar_ejecutada (srv : Servidor) (bd : BaseDatos) (t a : String) (l : Option String)
    (hmax : (bd.secuencia : Int) < INT4_MAX) :
    ejecutarSentencia srv bd (.insertar (some t) (some a) l) =
      (if bd.filas.any (fun c => c.id == (bd.secuencia : Int) + 1) then
        (.error .claveDuplicada, ⟨bd.filas, bd.secuencia + 1⟩)
      else
        (.ok [⟨(bd.secuencia : Int) + 1, t, a, l⟩],
          ⟨bd.filas ++ [⟨(bd.secuencia : Int) + 1, t, a, l⟩], bd.secuencia + 1⟩)) := by
  unfold ejecutarSentencia
  simp only [if_pos hmax]

theorem insertar_agotada (srv : Servidor) (bd : BaseDatos) (titulo artista letra : Option String)
    (hmax : ¬ (bd.secuencia : Int) < INT4_MAX) :
    ejecutarSentencia srv bd (.insertar titulo artista letra) =
      (.error .secuenciaAgotada, bd) := by
  unfold ejecutarSentencia
  simp only [if_neg hmax]

theorem post_texto (srv : Servidor) (bd : BaseDatos) (t a : String) (l : Option String)
    (hsec : SecuenciaAdelantada bd) (hmax : (bd.secuencia : Int) < INT4_MAX)
    (ht : t ≠ "") (ha : a ≠ "")
    (hadm : cuerpoAdmitido (cuerpoTexto t a l) = true) :
    post_api_canciones (.operativo srv) bd (cuerpoTexto t a l) =
      (⟨201, .cancion ⟨(bd.secuencia : Int) + 1, t, a, l⟩⟩,
        ⟨bd.filas ++ [⟨(bd.secuencia : Int) + 1, t, a, l⟩], bd.secuencia + 1⟩) := by
  have hpt : prepareValue (cuerpoTexto t a l).titulo = some t := rfl
  have hpa : prepareValue (cuerpoTexto t a l).artista = some a := rfl
  unfold post_api_canciones
  rw [valido_texto t a l ht ha,
    query_admitida srv bd _ (parametros_insertar _ hadm), prepareValue_letra, hpt, hpa,
    insertar_ejecutada srv bd t a l hmax, sin_colision hsec]
  rfl

theorem mem_ids {bd : BaseDatos} {i : Int} : i ∈ ids bd ↔ ∃ c ∈ bd.filas, c.id = i := by
  simp [ids]

theorem conId_nil_iff (i : Int) (filas : List Cancion) :
    conId i filas = [] ↔ ∀ c ∈ filas, c.id ≠ i := by
  simp [conId, List.filter_eq_nil_iff]

theorem conId_ausente {bd : BaseDatos} {i : Int} (h : i ∉ ids bd) : conId i bd.filas = [] := by
  rw [conId_nil_iff]
  intro c hc he
  exact h (mem_ids.2 ⟨c, hc, he⟩)

theorem conId_presente {bd : BaseDatos} {i : Int} (h : i ∈ ids bd) : conId i bd.filas ≠ [] := by
  rw [Ne, conId_nil_iff]
  intro hn
  obtain ⟨c, hc, he⟩ := mem_ids.1 h
  exact hn c hc he

theorem sinId_ausente {bd : BaseDatos} {i : Int} (h : i ∉ ids bd) : sinId i bd.filas = bd.filas := by
  simp only [sinId, List.filter_eq_self]
  intro c hc
  have : c.id ≠ i := fun he => h (mem_ids.2 ⟨c, hc, he⟩)
  simpa using this

theorem conId_sinId (i : Int) (filas : List Cancion) : conId i (sinId i filas) = [] := by
  rw [conId_nil_iff]
  intro c hc
  simp [sinId] at hc
  exact hc.2

theorem get_id_operativo (srv : Servidor) (bd : BaseDatos) (tok : String) (i : Int)
    (h : leerId srv tok = some i) :
    get_api_canciones_id (.operativo srv) bd tok =
      (if conId i bd.filas = [] then noEncontrada else ⟨200, primeraFila (conId i bd.filas)⟩, bd) := by
  unfold get_api_canciones_id
  rw [query_admitida srv bd _ (parametros_seleccionar tok (leerId_sinNulo srv tok i h))]
  simp only [ejecutarSentencia, h, List.length_eq_zero]
  split <;> rfl

theorem delete_operativo (srv : Servidor) (bd : BaseDatos) (tok : String) (i : Int)
    (h : leerId srv tok = some i) :
    delete_api_canciones_id (.operativo srv) bd tok =
      (if conId i bd.filas = [] then noEncontrada
        else ⟨200, .mensaje "Canción eliminada correctamente"⟩, ⟨sinId i bd.filas, bd.secuencia⟩) := by
  unfold delete_api_canciones_id
  rw [query_admitida srv bd _ (parametros_eliminar tok (leerId_sinNulo srv tok i h))]
  simp only [ejecutarSentencia, h, List.length_eq_zero]
  split <;> rfl

theorem valido_general (cuerpo : CuerpoSolicitud)
    (ht : esVerdadero cuerpo.titulo = true) (ha : esVerdadero cuerpo.artista = true) :
    (!esVerdadero cuerpo.titulo || !esVerdadero cuerpo.artista) = false := by
  simp [ht, ha]

theorem put_ausente (srv : Servidor) (bd : BaseDatos) (tok : String) (i : Int)
    (cuerpo : CuerpoSolicitud)
    (h : leerId srv tok = some i) (hi : conId i bd.filas = [])
    (ht : esVerdadero cuerpo.titulo = true) (ha : esVerdadero cuerpo.artista = true)
    (hadm : cuerpoAdmitido cuerpo = true) :
    put_api_canciones_id (.operativo srv) bd tok cuerpo = (noEncontrada, bd) := by
  unfold put_api_canciones_id
  rw [valido_general cuerpo ht ha,
    query_admitida srv bd _ (parametros_actualizar cuerpo tok hadm (leerId_sinNulo srv tok i h))]
  simp [ejecutarSentencia, h, hi]

theorem put_rechazado (srv : Servidor) (bd : BaseDatos) (tok : String)
    (cuerpo : CuerpoSolicitud)
    (ht : esVerdadero cuerpo.titulo = true) (ha : esVerdadero cuerpo.artista = true)
    (hadm : cuerpoAdmitido cuerpo = false) :
    put_api_canciones_id (.operativo srv) bd tok cuerpo = (errorInterno, bd) := by
  have hp : (parametros (.actualizar (prepareValue cuerpo.titulo) (prepareValue cuerpo.artista)
      (prepareValue cuerpo.letra) tok)).all parametroAdmitido = false := by
    simp only [cuerpoAdmitido] at hadm
    simp only [parametros, List.all_cons, List.all_nil, Bool.and_true]
    rw [← Bool.and_assoc, ← Bool.and_assoc, hadm, Bool.false_and]
  unfold put_api_canciones_id
  rw [valido_general cuerpo ht ha, query_rechazada srv bd _ hp]
  rfl

theorem put_texto (srv : Servidor) (bd : BaseDatos) (tok : String) (i : Int) (t a : String)
    (l : Option String)
    (h : leerId srv tok = some i) (hi : conId i bd.filas ≠ [])
    (ht : t ≠ "") (ha : a ≠ "")
    (hadm : cuerpoAdmitido (cuerpoTexto t a l) = true) :
    put_api_canciones_id (.operativo srv) bd tok (cuerpoTexto t a l) =
      (⟨200, primeraFila ((conId i bd.filas).map (fun c => ⟨c.id, t, a, l⟩))⟩,
        ⟨bd.filas.map (fun c => if c.id == i then ⟨c.id, t, a, l⟩ else c), bd.secuencia⟩) := by
  have hpt : prepareValue (cuerpoTexto t a l).titulo = some t := rfl
  have hpa : prepareValue (cuerpoTexto t a l).artista = some a := rfl
  have hne : (conId i bd.filas).isEmpty = false := by
    cases hc : conId i bd.filas with
    | nil => exact absurd hc hi
    | cons _ _ => rfl
  unfold put_api_canciones_id
  rw [valido_texto t a l ht ha,
    query_admitida srv bd _ (parametros_actualizar _ tok hadm (leerId_sinNulo srv tok i h)),
    prepareValue_letra, hpt, hpa]
  simp [ejecutarSentencia, h, hne, hi]

theorem put_presente (srv : Servidor) (bd : BaseDatos) (tok : String) (i : Int)
    (cuerpo : CuerpoSolicitud) (t a : String)
    (h : leerId srv tok = some i) (hi : conId i bd.filas ≠ [])
    (hv1 : esVerdadero cuerpo.titulo = true) (hv2 : esVerdadero cuerpo.artista = true)
    (hadm : cuerpoAdmitido cuerpo = true)
    (ht : prepareValue cuerpo.titulo = some t) (ha : prepareValue cuerpo.artista = some a) :
    put_api_canciones_id (.operativo srv) bd tok cuerpo =
      (⟨200, primeraFila ((conId i bd.filas).map
          (fun c => ⟨c.id, t, a, prepareValue cuerpo.letra⟩))⟩,
        ⟨bd.filas.map (fun c => if c.id == i then ⟨c.id, t, a, prepareValue cuerpo.letra⟩
          else c), bd.secuencia⟩) := by
  have hne : (conId i bd.filas).isEmpty = false := by
    cases hc : conId i bd.filas with
    | nil => exact absurd hc hi
    | cons _ _ => rfl
  unfold put_api_canciones_id
  rw [valido_general cuerpo hv1 hv2,
    query_admitida srv bd _ (parametros_actualizar _ tok hadm (leerId_sinNulo srv tok i h)),
    ht, ha]
  simp [ejecutarSentencia, h, hne, hi]

/-- With the link up, a path parameter that the server does not read as an integer
makes the query of GET throw. -/
theorem get_id_no_leido (srv : Servidor) (bd : BaseDatos) (tok : String)
    (h : leerId srv tok = none) :
    get_api_canciones_id (.operativo srv) bd tok = (errorInterno, bd) := by
  unfold get_api_canciones_id
  by_cases hp : (parametros (.seleccionarPorId tok)).all parametroAdmitido = true
  · rw [query_admitida srv bd _ hp]
    simp [ejecutarSentencia, h]
  · rw [Bool.not_eq_true] at hp
    rw [query_rechazada srv bd _ hp]

/-- With the link up, a path parameter that the server does not read as an integer
makes the query of DELETE throw. -/
theorem delete_no_leido (srv : Servidor) (bd : BaseDatos) (tok : String)
    (h : leerId srv tok = none) :
    delete_api_canciones_id (.operativo srv) bd tok = (errorInterno, bd) := by
  unfold delete_api_canciones_id
  by_cases hp : (parametros (.eliminar tok)).all parametroAdmitido = true
  · rw [query_admitida srv bd _ hp]
    simp [ejecutarSentencia, h]
  · rw [Bool.not_eq_true] at hp
    rw [query_rechazada srv bd _ hp]

/-- With the link up, a path parameter that the server does not read as an integer
makes the query of PUT throw, once the body has passed the validation. -/
theorem put_no_leido (srv : Servidor) (bd : BaseDatos) (tok : String)
    (cuerpo : CuerpoSolicitud) (h : leerId srv tok = none)
    (ht : esVerdadero cuerpo.titulo = true) (ha : esVerdadero cuerpo.artista = true) :
    put_api_canciones_id (.operativo srv) bd tok cuerpo = (errorInterno, bd) := by
  unfold put_api_canciones_id
  rw [valido_general cuerpo ht ha]
  by_cases hp : (parametros (.actualizar (prepareValue cuerpo.titulo)
      (prepareValue cuerpo.artista) (prepareValue cuerpo.letra) tok)).all parametroAdmitido
      = true
  · rw [query_admitida srv bd _ hp]
    simp [ejecutarSentencia, h]
  · rw [Bool.not_eq_true] at hp
    rw [query_rechazada srv bd _ hp]
    rfl

/-- C1, as stated, fails: with the link up and a body of non-empty texts, `POST
/api/canciones` answers the 500 response when the sequence is exhausted, when the
`titulo` holds the character U+0000, and when the next value of the sequence is the
id of a stored song. -/
theorem crear_luego_obtener_contraejemplo :
    (post_api_canciones (.operativo servidorDecimal) ⟨[], 2147483647⟩
      (cuerpoTexto "Imagine" "John Lennon" none)).1 = errorInterno ∧
    (post_api_canciones (.operativo servidorDecimal) vacia
      (cuerpoTexto "Ima\x00gine" "John Lennon" none)).1 = errorInterno ∧
    (post_api_canciones (.operativo servidorDecimal)
      ⟨[⟨1, "Yesterday", "The Beatles", none⟩], 0⟩
      (cuerpoTexto "Imagine" "John Lennon" none)).1 = errorInterno ∧
    errorInterno.estado = 500 := by
  decide

/-- C1, amended: with the link up, whatever the server, for every store whose sequence
is ahead of the stored ids and not exhausted, and every body whose `titulo` and
`artista` are non-empty texts without U+0000 (`letra` a text without U+0000, or absent),
`POST /api/canciones` answers 201 with a song whose id no stored song had and whose
fields are the supplied ones (`letra` null when absent), and `GET /api/canciones/:id`
with the decimal text of that id, asked right after, answers 200 with the same song. -/
theorem crear_luego_obtener (srv : Servidor) (bd : BaseDatos) (t a : String)
    (l : Option String)
    (hsec : SecuenciaAdelantada bd) (hmax : (bd.secuencia : Int) < INT4_MAX)
    (ht : t ≠ "") (ha : a ≠ "")
    (hnt : sinNulo t = true) (hna : sinNulo a = true) (hnl : parametroAdmitido l = true) :
    ∃ c : Cancion,
      (post_api_canciones (.operativo srv) bd (cuerpoTexto t a l)).1 = ⟨201, .cancion c⟩ ∧
      c.id ∉ ids bd ∧ c.titulo = t ∧ c.artista = a ∧ c.letra = l ∧
      (get_api_canciones_id (.operativo srv)
        (post_api_canciones (.operativo srv) bd (cuerpoTexto t a l)).2 (toString c.id)).1 =
          ⟨200, .cancion ⟨c.id, t, a, l⟩⟩ := by
  refine ⟨⟨(bd.secuencia : Int) + 1, t, a, l⟩, ?_⟩
  have hadm : cuerpoAdmitido (cuerpoTexto t a l) = true := by
    rw [cuerpoAdmitido_texto, hnt, hna, hnl]
    rfl
  have hnuevo : ((bd.secuencia : Int) + 1) ∉ ids bd := by
    intro hm
    obtain ⟨c, hc, he⟩ := mem_ids.1 hm
    have := hsec c hc
    omega
  have htok : leerId srv (toString ((bd.secuencia : Int) + 1)) =
      some ((bd.secuencia : Int) + 1) := by
    have := leerId_toString srv (bd.secuencia + 1) (by push_cast; omega)
    simpa using this
  rw [post_texto srv bd t a l hsec hmax ht ha hadm]
  refine ⟨rfl, hnuevo, rfl, rfl, rfl, ?_⟩
  rw [get_id_operativo srv _ _ _ htok]
  have hfil : conId ((bd.secuencia : Int) + 1)
      (bd.filas ++ [⟨(bd.secuencia : Int) + 1, t, a, l⟩]) = [⟨(bd.secuencia : Int) + 1, t, a, l⟩] := by
    have h0 := conId_ausente hnuevo
    simp only [conId] at h0 ⊢
    simp [List.filter_append, h0]
  simp only [hfil]
  rfl

/-- Witness of the amended C1: a store holding song 1, and a new song with lyrics. -/
theorem crear_luego_obtener_testigo :
    SecuenciaAdelantada ⟨[⟨1, "Yesterday", "The Beatles", none⟩], 1⟩ ∧
    sinNulo "Imagine" = true ∧ sinNulo "John Lennon" = true ∧
    parametroAdmitido (some "Imagine all the people") = true ∧
    ∃ c : Cancion,
      (post_api_canciones (.operativo servidorDecimal)
        ⟨[⟨1, "Yesterday", "The Beatles", none⟩], 1⟩
        (cuerpoTexto "Imagine" "John Lennon" (some "Imagine all the people"))).1 =
          ⟨201, .cancion c⟩ ∧
      c.id ∉ ids ⟨[⟨1, "Yesterday", "The Beatles", none⟩], 1⟩ ∧
      c.titulo = "Imagine" ∧ c.artista = "John Lennon" ∧
      c.letra = some "Imagine all the people" ∧
      (get_api_canciones_id (.operativo servidorDecimal)
        (post_api_canciones (.operativo servidorDecimal)
          ⟨[⟨1, "Yesterday", "The Beatles", none⟩], 1⟩
          (cuerpoTexto "Imagine" "John Lennon" (some "Imagine all the people"))).2
        (toString c.id)).1 =
          ⟨200, .cancion ⟨c.id, "Imagine", "John Lennon", some "Imagine all the people"⟩⟩ :=
  ⟨by decide, by decide, by decide, by decide,
    crear_luego_obtener servidorDecimal ⟨[⟨1, "Yesterday", "The Beatles", none⟩], 1⟩
      "Imagine" "John Lennon" (some "Imagine all the people")
      (by decide) (by decide) (by decide) (by decide) (by decide) (by decide) (by decide)⟩

theorem conId_actualizadas (i : Int) (filas : List Cancion) (t a : String) (l : Option String) :
    conId i (filas.map (fun c => if c.id == i then (⟨c.id, t, a, l⟩ : Cancion) else c)) =
      (conId i filas).map (fun c => ⟨c.id, t, a, l⟩) := by
  induction filas with
  | nil => rfl
  | cons c cs ih =>
    simp only [conId, beq_iff_eq] at ih ⊢
    by_cases h : c.id = i
    · simp [List.filter_cons, h, ih]
    · simp [List.filter_cons, h, ih]

theorem primeraFila_actualizada (i : Int) (filas : List Cancion) (t a : String)
    (l : Option String) (h : conId i filas ≠ []) :
    primeraFila ((conId i filas).map (fun c => (⟨c.id, t, a, l⟩ : Cancion))) =
      .cancion ⟨i, t, a, l⟩ := by
  cases hc : conId i filas with
  | nil => exact absurd hc h
  | cons c cs =>
    have hm : c ∈ conId i filas := by rw [hc]; simp
    have hid : c.id = i := by
      simp only [conId, List.mem_filter, beq_iff_eq] at hm
      exact hm.2
    simp [primeraFila, hid]

/-- C2, as stated, fails: with the link up, a `PUT /api/canciones/7` whose `titulo` is
a non-empty text that holds the character U+0000 answers the 500 response and leaves
the stored song as it was, as the following GET shows. -/
theorem actualizar_luego_obtener_contraejemplo :
    put_api_canciones_id (.operativo servidorDecimal)
        ⟨[⟨7, "Yesterday", "The Beatles", some "x"⟩], 7⟩ "7"
        (cuerpoTexto "Ima\x00gine" "John Lennon" none) =
      (errorInterno, ⟨[⟨7, "Yesterday", "The Beatles", some "x"⟩], 7⟩) ∧
    (get_api_canciones_id (.operativo servidorDecimal)
        (put_api_canciones_id (.operativo servidorDecimal)
          ⟨[⟨7, "Yesterday", "The Beatles", some "x"⟩], 7⟩ "7"
          (cuerpoTexto "Ima\x00gine" "John Lennon" none)).2 "7").1 =
      ⟨200, .cancion ⟨7, "Yesterday", "The Beatles", some "x"⟩⟩ ∧
    errorInterno.estado = 500 := by
  decide

/-- C2, amended: with the link up, whatever the server, for a store that holds a song
with id `i` (whatever its fields), a path parameter that the server reads as `i`, and
a body whose `titulo` and `artista` are non-empty texts without U+0000 (`letra` a text
without U+0000, or absent), `PUT /api/canciones/i` answers 200 with the song
`(i, t, a, l)`, and `GET /api/canciones/i` asked right after answers 200 with exactly
that song. -/
theorem actualizar_luego_obtener (srv : Servidor) (bd : BaseDatos) (i : Int) (tok : String)
    (t a : String) (l : Option String) (htok : leerId srv tok = some i) (hi : i ∈ ids bd)
    (ht : t ≠ "") (ha : a ≠ "")
    (hnt : sinNulo t = true) (hna : sinNulo a = true) (hnl : parametroAdmitido l = true) :
    (put_api_canciones_id (.operativo srv) bd tok (cuerpoTexto t a l)).1 =
        ⟨200, .cancion ⟨i, t, a, l⟩⟩ ∧
    (get_api_canciones_id (.operativo srv)
        (put_api_canciones_id (.operativo srv) bd tok (cuerpoTexto t a l)).2 tok).1 =
        ⟨200, .cancion ⟨i, t, a, l⟩⟩ := by
  have hadm : cuerpoAdmitido (cuerpoTexto t a l) = true := by
    rw [cuerpoAdmitido_texto, hnt, hna, hnl]
    rfl
  have hne := conId_presente hi
  rw [put_texto srv bd tok i t a l htok hne ht ha hadm]
  refine ⟨by simp only [primeraFila_actualizada i bd.filas t a l hne], ?_⟩
  rw [get_id_operativo srv _ _ _ htok]
  simp only [conId_actualizadas, primeraFila_actualizada i bd.filas t a l hne]
  have : List.map (fun c => (⟨c.id, t, a, l⟩ : Cancion)) (conId i bd.filas) ≠ [] := by
    simpa using hne
  simp [this]

/-- Witness of the amended C2: song 31 is rewritten through the path parameter `0x1F`
on a server that reads it as 31; its lyrics are replaced by null. -/
theorem actualizar_luego_obtener_testigo :
    leerId servidorExtendido "0x1F" = some 31 ∧
    (31 : Int) ∈ ids ⟨[⟨3, "a", "b", none⟩, ⟨31, "Yesterday", "The Beatles", some "x"⟩], 31⟩ ∧
    (put_api_canciones_id (.operativo servidorExtendido)
        ⟨[⟨3, "a", "b", none⟩, ⟨31, "Yesterday", "The Beatles", some "x"⟩], 31⟩ "0x1F"
        (cuerpoTexto "Imagine" "John Lennon" none)).1 =
        ⟨200, .cancion ⟨31, "Imagine", "John Lennon", none⟩⟩ ∧
    (get_api_canciones_id (.operativo servidorExtendido)
        (put_api_canciones_id (.operativo servidorExtendido)
          ⟨[⟨3, "a", "b", none⟩, ⟨31, "Yesterday", "The Beatles", some "x"⟩], 31⟩ "0x1F"
          (cuerpoTexto "Imagine" "John Lennon" none)).2 "0x1F").1 =
        ⟨200, .cancion ⟨31, "Imagine", "John Lennon", none⟩⟩ :=
  ⟨by decide, by decide,
    actualizar_luego_obtener servidorExtendido
      ⟨[⟨3, "a", "b", none⟩, ⟨31, "Yesterday", "The Beatles", some "x"⟩], 31⟩ 31 "0x1F"
      "Imagine" "John Lennon" none (by decide) (by decide) (by decide) (by decide)
      (by decide) (by decide) (by decide)⟩

/-- C3, as stated, fails: with the link up, after the `DELETE /api/canciones/2` that
answers 200, a `PUT /api/canciones/2` whose body passes the validation with a `titulo`
that holds the character U+0000 answers the 500 response of a storage failure, not
the 404 response. -/
theorem eliminar_es_definitivo_contraejemplo :
    (delete_api_canciones_id (.operativo servidorDecimal)
      ⟨[⟨1, "a", "b", none⟩, ⟨2, "c", "d", some "e"⟩], 2⟩ "2").1.estado = 200 ∧
    esVerdadero (cuerpoTexto "f\x00" "g" none).titulo = true ∧
    esVerdadero (cuerpoTexto "f\x00" "g" none).artista = true ∧
    (put_api_canciones_id (.operativo servidorDecimal)
      (delete_api_canciones_id (.operativo servidorDecimal)
        ⟨[⟨1, "a", "b", none⟩, ⟨2, "c", "d", some "e"⟩], 2⟩ "2").2 "2"
      (cuerpoTexto "f\x00" "g" none)).1 = errorInterno ∧
    errorInterno ≠ noEncontrada ∧ errorInterno.estado = 500 := by
  decide

/-- C3, amended: with the link up, whatever the server, for a store that holds a song
with id `i` and a path parameter that the server reads as `i`,
`DELETE /api/canciones/i` answers 200, and on the store it leaves, GET, PUT with a body
that passes the validation and whose texts hold no U+0000, and DELETE of `i` each
answer the 404 not-found response, which is not the 500 response of a storage
failure. -/
theorem eliminar_es_definitivo (srv : Servidor) (bd : BaseDatos) (i : Int) (tok : String)
    (cuerpo : CuerpoSolicitud) (htok : leerId srv tok = some i) (hi : i ∈ ids bd)
    (ht : esVerdadero cuerpo.titulo = true) (ha : esVerdadero cuerpo.artista = true)
    (hadm : cuerpoAdmitido cuerpo = true) :
    (delete_api_canciones_id (.operativo srv) bd tok).1.estado = 200 ∧
    (get_api_canciones_id (.operativo srv)
        (delete_api_canciones_id (.operativo srv) bd tok).2 tok).1 = noEncontrada ∧
    (put_api_canciones_id (.operativo srv)
        (delete_api_canciones_id (.operativo srv) bd tok).2 tok cuerpo).1 = noEncontrada ∧
    (delete_api_canciones_id (.operativo srv)
        (delete_api_canciones_id (.operativo srv) bd tok).2 tok).1 = noEncontrada ∧
    noEncontrada.estado = 404 ∧ noEncontrada ≠ errorInterno := by
  have hne := conId_presente hi
  have hvacio : conId i (⟨sinId i bd.filas, bd.secuencia⟩ : BaseDatos).filas = [] :=
    conId_sinId i bd.filas
  rw [delete_operativo srv bd tok i htok]
  refine ⟨by simp [hne], ?_, ?_, ?_, rfl, by decide⟩
  · rw [get_id_operativo srv _ _ _ htok]; simp [hvacio]
  · rw [put_ausente srv _ tok i cuerpo htok hvacio ht ha hadm]
  · rw [delete_operativo srv _ tok i htok]; simp [hvacio]

/-- Witness of the amended C3: song 2 of a store of two songs. -/
theorem eliminar_es_definitivo_testigo :
    leerId servidorDecimal "2" = some 2 ∧
    (2 : Int) ∈ ids ⟨[⟨1, "a", "b", none⟩, ⟨2, "c", "d", some "e"⟩], 2⟩ ∧
    cuerpoAdmitido (cuerpoTexto "f" "g" none) = true ∧
    (delete_api_canciones_id (.operativo servidorDecimal)
      ⟨[⟨1, "a", "b", none⟩, ⟨2, "c", "d", some "e"⟩], 2⟩ "2").1.estado = 200 ∧
    (get_api_canciones_id (.operativo servidorDecimal)
      (delete_api_canciones_id (.operativo servidorDecimal)
        ⟨[⟨1, "a", "b", none⟩, ⟨2, "c", "d", some "e"⟩], 2⟩ "2").2 "2").1 = noEncontrada ∧
    (put_api_canciones_id (.operativo servidorDecimal)
      (delete_api_canciones_id (.operativo servidorDecimal)
        ⟨[⟨1, "a", "b", none⟩, ⟨2, "c", "d", some "e"⟩], 2⟩ "2").2 "2"
        (cuerpoTexto "f" "g" none)).1 = noEncontrada ∧
    (delete_api_canciones_id (.operativo servidorDecimal)
      (delete_api_canciones_id (.operativo servidorDecimal)
        ⟨[⟨1, "a", "b", none⟩, ⟨2, "c", "d", some "e"⟩], 2⟩ "2").2 "2").1 = noEncontrada ∧
    noEncontrada.estado = 404 ∧ noEncontrada ≠ errorInterno :=
  ⟨by decide, by decide, by decide,
    eliminar_es_definitivo servidorDecimal
      ⟨[⟨1, "a", "b", none⟩, ⟨2, "c", "d", some "e"⟩], 2⟩ 2 "2"
      (cuerpoTexto "f" "g" none) (by decide) (by decide) (by decide) (by decide) (by decide)⟩

/-- C4, as stated, fails: with the link up, for the id 5 that no stored song has, a
`PUT /api/canciones/5` whose body passes the validation with a `titulo` that holds the
character U+0000 answers the 500 response, not the 404 response. -/
theorem ausente_no_encontrada_contraejemplo :
    (5 : Int) ∉ ids ⟨[⟨1, "a", "b", none⟩, ⟨2, "c", "d", some "e"⟩], 2⟩ ∧
    esVerdadero (cuerpoTexto "\x00f" "g" none).titulo = true ∧
    esVerdadero (cuerpoTexto "\x00f" "g" none).artista = true ∧
    put_api_canciones_id (.operativo servidorDecimal)
        ⟨[⟨1, "a", "b", none⟩, ⟨2, "c", "d", some "e"⟩], 2⟩ "5"
        (cuerpoTexto "\x00f" "g" none) =
      (errorInterno, ⟨[⟨1, "a", "b", none⟩, ⟨2, "c", "d", some "e"⟩], 2⟩) ∧
    errorInterno ≠ noEncontrada ∧ errorInterno.estado = 500 := by
  decide

/-- C4, amended: with the link up, whatever the server, for a path parameter that the
server reads as an integer `i` which is the id of no stored song, GET, PUT (with a body
that passes the validation and whose texts hold no U+0000) and DELETE each return the
404 not-found response and leave the store as it was. -/
theorem ausente_no_encontrada (srv : Servidor) (bd : BaseDatos) (i : Int) (tok : String)
    (cuerpo : CuerpoSolicitud) (htok : leerId srv tok = some i) (hi : i ∉ ids bd)
    (ht : esVerdadero cuerpo.titulo = true) (ha : esVerdadero cuerpo.artista = true)
    (hadm : cuerpoAdmitido cuerpo = true) :
    get_api_canciones_id (.operativo srv) bd tok = (noEncontrada, bd) ∧
    put_api_canciones_id (.operativo srv) bd tok cuerpo = (noEncontrada, bd) ∧
    delete_api_canciones_id (.operativo srv) bd tok = (noEncontrada, bd) ∧
    noEncontrada = ⟨404, .error "Canción no encontrada"⟩ := by
  have hvacio := conId_ausente hi
  refine ⟨?_, put_ausente srv bd tok i cuerpo htok hvacio ht ha hadm, ?_, rfl⟩
  · rw [get_id_operativo srv _ _ _ htok]; simp [hvacio]
  · rw [delete_operativo srv _ tok i htok, sinId_ausente hi]; simp [hvacio]

/-- Witness of the amended C4: id 9 in a store that holds songs 1 and 2. -/
theorem ausente_no_encontrada_testigo :
    leerId servidorDecimal "9" = some 9 ∧
    (9 : Int) ∉ ids ⟨[⟨1, "a", "b", none⟩, ⟨2, "c", "d", some "e"⟩], 2⟩ ∧
    cuerpoAdmitido (cuerpoTexto "f" "g" none) = true ∧
    get_api_canciones_id (.operativo servidorDecimal)
        ⟨[⟨1, "a", "b", none⟩, ⟨2, "c", "d", some "e"⟩], 2⟩ "9" =
      (noEncontrada, ⟨[⟨1, "a", "b", none⟩, ⟨2, "c", "d", some "e"⟩], 2⟩) ∧
    put_api_canciones_id (.operativo servidorDecimal)
        ⟨[⟨1, "a", "b", none⟩, ⟨2, "c", "d", some "e"⟩], 2⟩ "9"
        (cuerpoTexto "f" "g" none) =
      (noEncontrada, ⟨[⟨1, "a", "b", none⟩, ⟨2, "c", "d", some "e"⟩], 2⟩) ∧
    delete_api_canciones_id (.operativo servidorDecimal)
        ⟨[⟨1, "a", "b", none⟩, ⟨2, "c", "d", some "e"⟩], 2⟩ "9" =
      (noEncontrada, ⟨[⟨1, "a", "b", none⟩, ⟨2, "c", "d", some "e"⟩], 2⟩) ∧
    noEncontrada = ⟨404, .error "Canción no encontrada"⟩ :=
  ⟨by decide, by decide, by decide,
    ausente_no_encontrada servidorDecimal
      ⟨[⟨1, "a", "b", none⟩, ⟨2, "c", "d", some "e"⟩], 2⟩ 9 "9"
      (cuerpoTexto "f" "g" none) (by decide) (by decide) (by decide) (by decide) (by decide)⟩

/-! ## Validation and creation -/

theorem toString_int_ne_vacio (n : Int) : toString n ≠ "" := by
  cases n with
  | ofNat m =>
    obtain ⟨pre, h1, h2, -, -⟩ := toDigitsCore_lectura (m + 1) m [] (by omega)
    have hs : (toString (Int.ofNat m)).toList = pre := by
      show (Nat.toDigits 10 m) = pre
      simpa [Nat.toDigits] using h1
    intro he
    rw [he] at hs
    exact h2 hs.symm
  | negSucc m =>
    intro he
    have : (toString (Int.negSucc m)).toList = '-' :: (toString (m + 1)).toList := rfl
    rw [he] at this
    exact absurd this (by simp)

theorem prepareValue_verdadero (v : ValorJS) (h : esVerdadero v = true) :
    ∃ s, prepareValue v = some s ∧ s ≠ "" := by
  cases v with
  | indefinido => simp [esVerdadero] at h
  | nulo => simp [esVerdadero] at h
  | booleano b =>
    simp only [esVerdadero] at h
    subst h
    exact ⟨"true", rfl, by decide⟩
  | numero negativo magnitud =>
    exact ⟨toString (valorNumero negativo magnitud), rfl, toString_int_ne_vacio _⟩
  | texto s =>
    refine ⟨s, rfl, ?_⟩
    simpa [esVerdadero] using h

theorem post_invalido (enlace : Enlace) (bd : BaseDatos) (cuerpo : CuerpoSolicitud)
    (h : esVerdadero cuerpo.titulo = false ∨ esVerdadero cuerpo.artista = false) :
    post_api_canciones enlace bd cuerpo = (datosObligatorios, bd) := by
  unfold post_api_canciones
  rcases h with h | h <;> simp [h]

theorem put_invalido (enlace : Enlace) (bd : BaseDatos) (id : String) (cuerpo : CuerpoSolicitud)
    (h : esVerdadero cuerpo.titulo = false ∨ esVerdadero cuerpo.artista = false) :
    put_api_canciones_id enlace bd id cuerpo = (datosObligatorios, bd) := by
  unfold put_api_canciones_id
  rcases h with h | h <;> simp [h]

/-- The outcomes of `POST /api/canciones`: either no song is created, the rows stay and
the sequence does not go back, or the song made of the prepared values is appended
under the next value of the sequence, which no row carries. -/
theorem post_casos (enlace : Enlace) (bd : BaseDatos) (cuerpo : CuerpoSolicitud) :
    ((post_api_canciones enlace bd cuerpo).1.estado ≠ 201 ∧
      (post_api_canciones enlace bd cuerpo).2.filas = bd.filas ∧
      bd.secuencia ≤ (post_api_canciones enlace bd cuerpo).2.secuencia) ∨
    (∃ t a, t ≠ "" ∧ a ≠ "" ∧
      bd.filas.any (fun c => c.id == (bd.secuencia : Int) + 1) = false ∧
      post_api_canciones enlace bd cuerpo =
        (⟨201, .cancion ⟨(bd.secuencia : Int) + 1, t, a, prepareValue cuerpo.letra⟩⟩,
          ⟨bd.filas ++ [⟨(bd.secuencia : Int) + 1, t, a, prepareValue cuerpo.letra⟩],
            bd.secuencia + 1⟩)) := by
  by_cases hv : esVerdadero cuerpo.titulo = true ∧ esVerdadero cuerpo.artista = true
  · obtain ⟨t, ht, htne⟩ := prepareValue_verdadero _ hv.1
    obtain ⟨a, ha, hane⟩ := prepareValue_verdadero _ hv.2
    cases enlace with
    | caido =>
      left
      simp [post_api_canciones, poolConexion_query, hv.1, hv.2, errorInterno]
    | operativo srv =>
      by_cases hadm : (parametros (.insertar (prepareValue cuerpo.titulo)
          (prepareValue cuerpo.artista) (prepareValue cuerpo.letra))).all parametroAdmitido
          = true
      · by_cases hmax : (bd.secuencia : Int) < INT4_MAX
        · by_cases hcol : bd.filas.any (fun c => c.id == (bd.secuencia : Int) + 1) = true
          · left
            unfold post_api_canciones
            rw [query_admitida srv bd _ hadm, ht, ha, insertar_ejecutada srv bd t a _ hmax,
              if_pos hcol]
            simp [hv.1, hv.2, errorInterno]
          · right
            refine ⟨t, a, htne, hane, by simpa using hcol, ?_⟩
            unfold post_api_canciones
            rw [query_admitida srv bd _ hadm, ht, ha, insertar_ejecutada srv bd t a _ hmax,
              if_neg hcol]
            simp [hv.1, hv.2, primeraFila]
        · left
          unfold post_api_canciones
          rw [query_admitida srv bd _ hadm, insertar_agotada srv bd _ _ _ hmax]
          simp [hv.1, hv.2, errorInterno]
      · left
        rw [Bool.not_eq_true] at hadm
        unfold post_api_canciones
        rw [query_rechazada srv bd _ hadm]
        simp [hv.1, hv.2, errorInterno]
  · left
    have h : esVerdadero cuerpo.titulo = false ∨ esVerdadero cuerpo.artista = false := by
      by_cases h1 : esVerdadero cuerpo.titulo = true
      · right
        simpa using fun h2 => hv ⟨h1, h2⟩
      · left
        simpa using h1
    rw [post_invalido enlace bd cuerpo h]
    exact ⟨by simp [datosObligatorios], rfl, le_refl _⟩

/-- With the link up and a body of non-empty texts, `POST /api/canciones` answers 201
exactly when no text holds U+0000, the sequence is not exhausted and its next value is
the id of no row: these are the conditions under which the INSERT does not fail. -/
theorem post_texto_201_iff (srv : Servidor) (bd : BaseDatos) (t a : String)
    (l : Option String) (ht : t ≠ "") (ha : a ≠ "") :
    (post_api_canciones (.operativo srv) bd (cuerpoTexto t a l)).1.estado = 201 ↔
      cuerpoAdmitido (cuerpoTexto t a l) = true ∧ (bd.secuencia : Int) < INT4_MAX ∧
        bd.filas.any (fun c => c.id == (bd.secuencia : Int) + 1) = false := by
  have hpt : prepareValue (cuerpoTexto t a l).titulo = some t := rfl
  have hpa : prepareValue (cuerpoTexto t a l).artista = some a := rfl
  by_cases hadm : cuerpoAdmitido (cuerpoTexto t a l) = true
  · unfold post_api_canciones
    rw [valido_texto t a l ht ha, query_admitida srv bd _ (parametros_insertar _ hadm),
      hpt, hpa]
    by_cases hmax : (bd.secuencia : Int) < INT4_MAX
    · rw [insertar_ejecutada srv bd t a _ hmax]
      by_cases hcol : bd.filas.any (fun c => c.id == (bd.secuencia : Int) + 1) = true
      · rw [if_pos hcol]
        simp [hcol, errorInterno]
      · rw [if_neg hcol]
        simp only [Bool.not_eq_true] at hcol
        simp [hcol, hmax, hadm]
    · rw [insertar_agotada srv bd _ _ _ hmax]
      simp [hmax, errorInterno]
  · have hp : (parametros (.insertar (prepareValue (cuerpoTexto t a l).titulo)
        (prepareValue (cuerpoTexto t a l).artista)
        (prepareValue (cuerpoTexto t a l).letra))).all parametroAdmitido = false := by
      rw [Bool.not_eq_true] at hadm
      simp only [cuerpoAdmitido] at hadm
      simp only [parametros, List.all_cons, List.all_nil, Bool.and_true]
      rw [← Bool.and_assoc, hadm]
    unfold post_api_canciones
    rw [valido_texto t a l ht ha, query_rechazada srv bd _ hp]
    simp [hadm, errorInterno]

theorem get_lista_operativo (srv : Servidor) (bd : BaseDatos) :
    get_api_canciones (.operativo srv) bd =
      (⟨200, .canciones (bd.filas.insertionSort ordenId)⟩, bd) := rfl

theorem conId_perm {i : Int} {xs ys : List Cancion} (h : xs.Perm ys) :
    (conId i xs).Perm (conId i ys) :=
  h.filter _

/-- C5: whenever `POST /api/canciones` answers 201, its body is a song whose id is the id
of no song of the list taken before the create, and the list taken after the create
holds exactly one song with that id, the created one; the lists are taken with the
link up, from any server. -/
theorem id_creado_es_nuevo (srv : Servidor) (enlace : Enlace) (bd : BaseDatos) (cuerpo : CuerpoSolicitud)
    (h : (post_api_canciones enlace bd cuerpo).1.estado = 201) :
    ∃ (c : Cancion) (antes despues : List Cancion),
      (post_api_canciones enlace bd cuerpo).1.cuerpo = .cancion c ∧
      (get_api_canciones (.operativo srv) bd).1 = ⟨200, .canciones antes⟩ ∧
      (get_api_canciones (.operativo srv) (post_api_canciones enlace bd cuerpo).2).1 =
        ⟨200, .canciones despues⟩ ∧
      (∀ x ∈ antes, x.id ≠ c.id) ∧
      conId c.id despues = [c] := by
  rcases post_casos enlace bd cuerpo with hno | ⟨t, a, -, -, hcol, hpost⟩
  · exact absurd h hno.1
  · rw [hpost]
    refine ⟨_, _, _, rfl, rfl, rfl, ?_, ?_⟩
    · intro x hx
      rw [List.any_eq_false] at hcol
      have := hcol x ((List.mem_insertionSort ordenId).1 hx)
      simpa using this
    · have hp := conId_perm (i := (bd.secuencia : Int) + 1)
        (List.perm_insertionSort ordenId
          (bd.filas ++ [⟨(bd.secuencia : Int) + 1, t, a, prepareValue cuerpo.letra⟩]))
      have h0 : conId ((bd.secuencia : Int) + 1) bd.filas = [] := by
        rw [conId_nil_iff]
        intro x hx
        rw [List.any_eq_false] at hcol
        simpa using hcol x hx
      have h1 : conId ((bd.secuencia : Int) + 1)
          (bd.filas ++ [⟨(bd.secuencia : Int) + 1, t, a, prepareValue cuerpo.letra⟩]) =
          [⟨(bd.secuencia : Int) + 1, t, a, prepareValue cuerpo.letra⟩] := by
        simp only [conId] at h0 ⊢
        simp [List.filter_append, h0]
      rw [h1] at hp
      exact List.perm_singleton.1 hp

/-- Witness of C5: a create on a store that holds songs 1 and 3. -/
theorem id_creado_es_nuevo_testigo :
    (post_api_canciones (.operativo servidorDecimal) ⟨[⟨3, "a", "b", none⟩, ⟨1, "c", "d", none⟩], 3⟩
      (cuerpoTexto "Imagine" "John Lennon" none)).1.estado = 201 ∧
    ∃ (c : Cancion) (antes despues : List Cancion),
      (post_api_canciones (.operativo servidorDecimal) ⟨[⟨3, "a", "b", none⟩, ⟨1, "c", "d", none⟩], 3⟩
        (cuerpoTexto "Imagine" "John Lennon" none)).1.cuerpo = .cancion c ∧
      (get_api_canciones (.operativo servidorDecimal) ⟨[⟨3, "a", "b", none⟩, ⟨1, "c", "d", none⟩], 3⟩).1 =
        ⟨200, .canciones antes⟩ ∧
      (get_api_canciones (.operativo servidorDecimal)
        (post_api_canciones (.operativo servidorDecimal) ⟨[⟨3, "a", "b", none⟩, ⟨1, "c", "d", none⟩], 3⟩
          (cuerpoTexto "Imagine" "John Lennon" none)).2).1 = ⟨200, .canciones despues⟩ ∧
      (∀ x ∈ antes, x.id ≠ c.id) ∧
      conId c.id despues = [c] :=
  ⟨by decide,
    id_creado_es_nuevo servidorDecimal (.operativo servidorDecimal) ⟨[⟨3, "a", "b", none⟩, ⟨1, "c", "d", none⟩], 3⟩
      (cuerpoTexto "Imagine" "John Lennon" none) (by decide)⟩

/-- C6: for every store, whatever the state of the link, a body whose `titulo` or
`artista` is absent or the empty text makes `POST /api/canciones` answer 400 with the
validation message and return the store as it was, rows and sequence, so the list
taken after it is the list taken before it. -/
theorem crear_invalido_rechazado (srv : Servidor) (enlace : Enlace) (bd : BaseDatos) (cuerpo : CuerpoSolicitud)
    (h : cuerpo.titulo = .indefinido ∨ cuerpo.titulo = .texto "" ∨
      cuerpo.artista = .indefinido ∨ cuerpo.artista = .texto "") :
    post_api_canciones enlace bd cuerpo =
      (⟨400, .error "Título y artista son obligatorios"⟩, bd) ∧
    get_api_canciones (.operativo srv) (post_api_canciones enlace bd cuerpo).2 =
      get_api_canciones (.operativo srv) bd ∧
    ((post_api_canciones enlace bd cuerpo).2.filas.insertionSort ordenId).length =
      (bd.filas.insertionSort ordenId).length := by
  have hf : esVerdadero cuerpo.titulo = false ∨ esVerdadero cuerpo.artista = false := by
    rcases h with h | h | h | h
    · left; rw [h]; rfl
    · left; rw [h]; rfl
    · right; rw [h]; rfl
    · right; rw [h]; rfl
  rw [post_invalido enlace bd cuerpo hf]
  exact ⟨rfl, rfl, rfl⟩

/-- Witness of C6: a body without `artista`, with the link down. -/
theorem crear_invalido_rechazado_testigo :
    ((⟨.texto "Imagine", .indefinido, .texto "x"⟩ : CuerpoSolicitud).titulo = .indefinido ∨
      (⟨.texto "Imagine", .indefinido, .texto "x"⟩ : CuerpoSolicitud).titulo = .texto "" ∨
      (⟨.texto "Imagine", .indefinido, .texto "x"⟩ : CuerpoSolicitud).artista = .indefinido ∨
      (⟨.texto "Imagine", .indefinido, .texto "x"⟩ : CuerpoSolicitud).artista = .texto "") ∧
    post_api_canciones .caido ⟨[⟨1, "a", "b", none⟩], 1⟩
        ⟨.texto "Imagine", .indefinido, .texto "x"⟩ =
      (⟨400, .error "Título y artista son obligatorios"⟩, ⟨[⟨1, "a", "b", none⟩], 1⟩) ∧
    get_api_canciones (.operativo servidorDecimal) (post_api_canciones .caido ⟨[⟨1, "a", "b", none⟩], 1⟩
        ⟨.texto "Imagine", .indefinido, .texto "x"⟩).2 =
      get_api_canciones (.operativo servidorDecimal) ⟨[⟨1, "a", "b", none⟩], 1⟩ ∧
    ((post_api_canciones .caido ⟨[⟨1, "a", "b", none⟩], 1⟩
        ⟨.texto "Imagine", .indefinido, .texto "x"⟩).2.filas.insertionSort ordenId).length =
      ((⟨[⟨1, "a", "b", none⟩], 1⟩ : BaseDatos).filas.insertionSort ordenId).length :=
  ⟨Or.inr (Or.inr (Or.inl rfl)),
    crear_invalido_rechazado servidorDecimal .caido ⟨[⟨1, "a", "b", none⟩], 1⟩
      ⟨.texto "Imagine", .indefinido, .texto "x"⟩ (Or.inr (Or.inr (Or.inl rfl)))⟩

/-- C10: for every store, every path parameter (readable as an id or not, present or
absent) and whatever the state of the link, a body whose `titulo` or `artista` is
absent or the empty text makes `PUT /api/canciones/:id` answer the 400 validation
response, the same response that `POST /api/canciones` gives to that body, and return
the store as it was. -/
theorem actualizar_invalido_rechazado (enlace : Enlace) (bd : BaseDatos) (id : String)
    (cuerpo : CuerpoSolicitud)
    (h : cuerpo.titulo = .indefinido ∨ cuerpo.titulo = .texto "" ∨
      cuerpo.artista = .indefinido ∨ cuerpo.artista = .texto "") :
    put_api_canciones_id enlace bd id cuerpo =
      (⟨400, .error "Título y artista son obligatorios"⟩, bd) ∧
    (put_api_canciones_id enlace bd id cuerpo).1 = (post_api_canciones enlace bd cuerpo).1 := by
  have hf : esVerdadero cuerpo.titulo = false ∨ esVerdadero cuerpo.artista = false := by
    rcases h with h | h | h | h
    · left; rw [h]; rfl
    · left; rw [h]; rfl
    · right; rw [h]; rfl
    · right; rw [h]; rfl
  rw [put_invalido enlace bd id cuerpo hf, post_invalido enlace bd cuerpo hf]
  exact ⟨rfl, rfl⟩

/-- Witness of C10: an empty `titulo` sent to the id of a stored song. -/
theorem actualizar_invalido_rechazado_testigo :
    ((⟨.texto "", .texto "John Lennon", .indefinido⟩ : CuerpoSolicitud).titulo = .indefinido ∨
      (⟨.texto "", .texto "John Lennon", .indefinido⟩ : CuerpoSolicitud).titulo = .texto "" ∨
      (⟨.texto "", .texto "John Lennon", .indefinido⟩ : CuerpoSolicitud).artista = .indefinido ∨
      (⟨.texto "", .texto "John Lennon", .indefinido⟩ : CuerpoSolicitud).artista = .texto "") ∧
    put_api_canciones_id (.operativo servidorDecimal) ⟨[⟨1, "a", "b", none⟩], 1⟩ "1"
        ⟨.texto "", .texto "John Lennon", .indefinido⟩ =
      (⟨400, .error "Título y artista son obligatorios"⟩, ⟨[⟨1, "a", "b", none⟩], 1⟩) ∧
    (put_api_canciones_id (.operativo servidorDecimal) ⟨[⟨1, "a", "b", none⟩], 1⟩ "1"
        ⟨.texto "", .texto "John Lennon", .indefinido⟩).1 =
      (post_api_canciones (.operativo servidorDecimal) ⟨[⟨1, "a", "b", none⟩], 1⟩
        ⟨.texto "", .texto "John Lennon", .indefinido⟩).1 :=
  ⟨Or.inr (Or.inl rfl),
    actualizar_invalido_rechazado (.operativo servidorDecimal) ⟨[⟨1, "a", "b", none⟩], 1⟩ "1"
      ⟨.texto "", .texto "John Lennon", .indefinido⟩ (Or.inr (Or.inl rfl))⟩

/-! ## The list -/

theorem lista_ordenada (filas : List Cancion) (h : (filas.map (·.id)).Nodup) :
    (filas.insertionSort ordenId).Pairwise (fun x y => x.id < y.id) := by
  have hs : (filas.insertionSort ordenId).Pairwise ordenId := List.sorted_insertionSort ordenId filas
  have hn : ((filas.insertionSort ordenId).map (·.id)).Nodup :=
    ((List.perm_insertionSort ordenId filas).map _).nodup_iff.2 h
  have hd : (filas.insertionSort ordenId).Pairwise (fun x y => x.id ≠ y.id) := by
    rw [List.Nodup, List.pairwise_map] at hn
    exact hn
  exact (hs.and hd).imp (fun ⟨h1, h2⟩ => lt_of_le_of_ne h1 h2)

/-- C7: with the link up, whatever the server, for every store whose rows respect the primary key,
`GET /api/canciones` answers 200 with an array that holds the stored songs and only
those (it is a rearrangement of the rows), in strictly ascending order of id, leaves
the store as it was, and answers the empty array when no song is stored. -/
theorem listar_todas_en_orden (srv : Servidor) (bd : BaseDatos) (hpk : ClavePrimaria bd) :
    ∃ filas : List Cancion,
      get_api_canciones (.operativo srv) bd = (⟨200, .canciones filas⟩, bd) ∧
      filas.Perm bd.filas ∧
      filas.Pairwise (fun x y => x.id < y.id) ∧
      (bd.filas = [] → filas = []) :=
  ⟨bd.filas.insertionSort ordenId, rfl, List.perm_insertionSort ordenId bd.filas,
    lista_ordenada bd.filas hpk, fun h => by rw [h]; rfl⟩

/-- Witness of C7: three songs stored out of order. -/
theorem listar_todas_en_orden_testigo :
    ClavePrimaria ⟨[⟨3, "a", "b", none⟩, ⟨1, "c", "d", none⟩, ⟨2, "e", "f", some "g"⟩], 3⟩ ∧
    ∃ filas : List Cancion,
      get_api_canciones (.operativo servidorDecimal)
          ⟨[⟨3, "a", "b", none⟩, ⟨1, "c", "d", none⟩, ⟨2, "e", "f", some "g"⟩], 3⟩ =
        (⟨200, .canciones filas⟩,
          ⟨[⟨3, "a", "b", none⟩, ⟨1, "c", "d", none⟩, ⟨2, "e", "f", some "g"⟩], 3⟩) ∧
      filas.Perm (⟨[⟨3, "a", "b", none⟩, ⟨1, "c", "d", none⟩, ⟨2, "e", "f", some "g"⟩], 3⟩ :
        BaseDatos).filas ∧
      filas.Pairwise (fun x y => x.id < y.id) ∧
      ((⟨[⟨3, "a", "b", none⟩, ⟨1, "c", "d", none⟩, ⟨2, "e", "f", some "g"⟩], 3⟩ :
        BaseDatos).filas = [] → filas = []) :=
  ⟨by decide,
    listar_todas_en_orden servidorDecimal
      ⟨[⟨3, "a", "b", none⟩, ⟨1, "c", "d", none⟩, ⟨2, "e", "f", some "g"⟩], 3⟩ (by decide)⟩

/-! ## Runs of requests -/

theorem get_lista_estado (enlace : Enlace) (bd : BaseDatos) :
    (get_api_canciones enlace bd).2 = bd := by
  cases enlace <;> rfl

theorem get_id_estado (enlace : Enlace) (bd : BaseDatos) (id : String) :
    (get_api_canciones_id enlace bd id).2 = bd := by
  cases enlace with
  | caido => rfl
  | operativo srv =>
    cases hi : leerId srv id with
    | none => rw [get_id_no_leido srv bd id hi]
    | some i => rw [get_id_operativo srv bd id i hi]

/-- The store after `PUT /api/canciones/:id`: as it was, or with the rows of one id
rewritten with a non-empty `titulo` and `artista`. -/
theorem put_casos (enlace : Enlace) (bd : BaseDatos) (id : String) (cuerpo : CuerpoSolicitud) :
    (put_api_canciones_id enlace bd id cuerpo).2 = bd ∨
    ∃ (i : Int) (t a : String), t ≠ "" ∧ a ≠ "" ∧
      (put_api_canciones_id enlace bd id cuerpo).2 =
        ⟨bd.filas.map (fun c => if c.id == i then ⟨c.id, t, a, prepareValue cuerpo.letra⟩ else c),
          bd.secuencia⟩ := by
  by_cases hv : esVerdadero cuerpo.titulo = true ∧ esVerdadero cuerpo.artista = true
  · obtain ⟨t, ht, htne⟩ := prepareValue_verdadero _ hv.1
    obtain ⟨a, ha, hane⟩ := prepareValue_verdadero _ hv.2
    cases enlace with
    | caido => left; simp [put_api_canciones_id, poolConexion_query, hv.1, hv.2]
    | operativo srv =>
      cases hi : leerId srv id with
      | none => left; rw [put_no_leido srv bd id cuerpo hi hv.1 hv.2]
      | some i =>
        by_cases hadm : cuerpoAdmitido cuerpo = true
        · by_cases hvac : conId i bd.filas = []
          · left
            rw [put_ausente srv bd id i cuerpo hi hvac hv.1 hv.2 hadm]
          · right
            refine ⟨i, t, a, htne, hane, ?_⟩
            rw [put_presente srv bd id i cuerpo t a hi hvac hv.1 hv.2 hadm ht ha]
        · left
          rw [Bool.not_eq_true] at hadm
          rw [put_rechazado srv bd id cuerpo hv.1 hv.2 hadm]
  · left
    have h : esVerdadero cuerpo.titulo = false ∨ esVerdadero cuerpo.artista = false := by
      by_cases h1 : esVerdadero cuerpo.titulo = true
      · right
        simpa using fun h2 => hv ⟨h1, h2⟩
      · left
        simpa using h1
    rw [put_invalido enlace bd id cuerpo h]

/-- The store after `DELETE /api/canciones/:id`: as it was, or without the rows of one id. -/
theorem delete_casos (enlace : Enlace) (bd : BaseDatos) (id : String) :
    (delete_api_canciones_id enlace bd id).2 = bd ∨
    ∃ i : Int, (delete_api_canciones_id enlace bd id).2 = ⟨sinId i bd.filas, bd.secuencia⟩ := by
  cases enlace with
  | caido => left; rfl
  | operativo srv =>
    cases hi : leerId srv id with
    | none => left; rw [delete_no_leido srv bd id hi]
    | some i => right; exact ⟨i, by rw [delete_operativo srv bd id i hi]⟩

theorem invariante_vacia : Invariante vacia := by
  refine ⟨?_, ?_, ?_⟩
  · intro c hc; simp [vacia] at hc
  · simp [ClavePrimaria, ids, vacia]
  · intro c hc; simp [vacia] at hc

theorem invariante_post (enlace : Enlace) (bd : BaseDatos) (cuerpo : CuerpoSolicitud)
    (h : Invariante bd) : Invariante (post_api_canciones enlace bd cuerpo).2 := by
  obtain ⟨h1, h2, h3⟩ := h
  rcases post_casos enlace bd cuerpo with ⟨-, hf, hs⟩ | ⟨t, a, ht, ha, -, hpost⟩
  · refine ⟨?_, ?_, ?_⟩
    · rw [hf]; exact h1
    · simpa [ClavePrimaria, ids, hf] using h2
    · intro c hc
      rw [hf] at hc
      have := h3 c hc
      omega
  · rw [hpost]
    refine ⟨?_, ?_, ?_⟩
    · intro c hc
      rcases List.mem_append.1 hc with hc | hc
      · exact h1 c hc
      · simp only [List.mem_singleton] at hc
        subst hc
        exact ⟨ht, ha⟩
    · simp only [ClavePrimaria, ids, List.map_append, List.map_cons, List.map_nil] at h2 ⊢
      rw [List.nodup_append]
      refine ⟨h2, List.nodup_singleton _, ?_⟩
      intro x hx hx2
      simp only [List.mem_singleton] at hx2
      obtain ⟨c, hc, he⟩ := List.mem_map.1 hx
      have := h3 c hc
      omega
    · intro c hc
      rcases List.mem_append.1 hc with hc | hc
      · have := h3 c hc
        show c.id ≤ ((bd.secuencia + 1 : Nat) : Int)
        omega
      · simp only [List.mem_singleton] at hc
        subst hc
        show (bd.secuencia : Int) + 1 ≤ ((bd.secuencia + 1 : Nat) : Int)
        omega

theorem invariante_put (enlace : Enlace) (bd : BaseDatos) (id : String) (cuerpo : CuerpoSolicitud)
    (h : Invariante bd) : Invariante (put_api_canciones_id enlace bd id cuerpo).2 := by
  obtain ⟨h1, h2, h3⟩ := h
  rcases put_casos enlace bd id cuerpo with hs | ⟨i, t, a, ht, ha, hs⟩
  · rw [hs]; exact ⟨h1, h2, h3⟩
  · rw [hs]
    have hids : ∀ filas : List Cancion,
        (filas.map (fun c => if c.id == i then
          (⟨c.id, t, a, prepareValue cuerpo.letra⟩ : Cancion) else c)).map (·.id) =
          filas.map (·.id) := by
      intro filas
      rw [List.map_map]
      apply List.map_congr_left
      intro c _
      simp only [Function.comp]
      split <;> rfl
    refine ⟨?_, ?_, ?_⟩
    · intro c hc
      obtain ⟨c0, hc0, he⟩ := List.mem_map.1 hc
      by_cases hi : (c0.id == i) = true
      · rw [if_pos hi] at he
        subst he
        exact ⟨ht, ha⟩
      · rw [if_neg hi] at he
        subst he
        exact h1 c0 hc0
    · simp only [ClavePrimaria, ids] at h2 ⊢
      rw [hids]
      exact h2
    · intro c hc
      obtain ⟨c0, hc0, he⟩ := List.mem_map.1 hc
      have := h3 c0 hc0
      by_cases hi : (c0.id == i) = true
      · rw [if_pos hi] at he
        subst he
        exact this
      · rw [if_neg hi] at he
        subst he
        exact this

theorem invariante_delete (enlace : Enlace) (bd : BaseDatos) (id : String)
    (h : Invariante bd) : Invariante (delete_api_canciones_id enlace bd id).2 := by
  obtain ⟨h1, h2, h3⟩ := h
  rcases delete_casos enlace bd id with hs | ⟨i, hs⟩
  · rw [hs]; exact ⟨h1, h2, h3⟩
  · rw [hs]
    have hsub : (sinId i bd.filas).Sublist bd.filas := List.filter_sublist _
    refine ⟨fun c hc => h1 c (hsub.subset hc), ?_, fun c hc => h3 c (hsub.subset hc)⟩
    simp only [ClavePrimaria, ids] at h2 ⊢
    exact h2.sublist (hsub.map _)

theorem invariante_atender (enlace : Enlace) (bd : BaseDatos) (p : Peticion)
    (h : Invariante bd) : Invariante (atender enlace bd p).2 := by
  cases p with
  | listar => simp only [atender, get_lista_estado]; exact h
  | obtener id => simp only [atender, get_id_estado]; exact h
  | crear cuerpo => exact invariante_post enlace bd cuerpo h
  | actualizar id cuerpo => exact invariante_put enlace bd id cuerpo h
  | eliminar id => exact invariante_delete enlace bd id h

theorem estadoTras_cons (bd : BaseDatos) (enlace : Enlace) (p : Peticion)
    (ps : List (Enlace × Peticion)) :
    estadoTras bd ((enlace, p) :: ps) = estadoTras (atender enlace bd p).2 ps := rfl

theorem invariante_estadoTras (ps : List (Enlace × Peticion)) :
    ∀ bd : BaseDatos, Invariante bd → Invariante (estadoTras bd ps) := by
  induction ps with
  | nil => intro bd h; exact h
  | cons x xs ih =>
    intro bd h
    obtain ⟨enlace, p⟩ := x
    rw [estadoTras_cons]
    exact ih _ (invariante_atender enlace bd p h)

/-- C9: in the store reached from the empty table by any sequence of requests to the
five handlers, each under any state of the link, every stored song has a non-empty
`titulo` and a non-empty `artista`, and no two stored songs share an id. -/
theorem invariante_del_almacen (ps : List (Enlace × Peticion)) :
    (∀ c ∈ (estadoTras vacia ps).filas, c.titulo ≠ "" ∧ c.artista ≠ "") ∧
    (ids (estadoTras vacia ps)).Nodup := by
  have h := invariante_estadoTras ps vacia invariante_vacia
  exact ⟨h.1, h.2.1⟩

/-! ## Assigned ids -/

theorem secuencia_put (enlace : Enlace) (bd : BaseDatos) (id : String) (cuerpo : CuerpoSolicitud) :
    (put_api_canciones_id enlace bd id cuerpo).2.secuencia = bd.secuencia := by
  rcases put_casos enlace bd id cuerpo with hs | ⟨i, t, a, -, -, hs⟩ <;> rw [hs]

theorem secuencia_delete (enlace : Enlace) (bd : BaseDatos) (id : String) :
    (delete_api_canciones_id enlace bd id).2.secuencia = bd.secuencia := by
  rcases delete_casos enlace bd id with hs | ⟨i, hs⟩ <;> rw [hs]

theorem idAsignado_crear (cuerpo : CuerpoSolicitud) (r : Respuesta) (i : Int)
    (h : idAsignado (.crear cuerpo) r = some i) :
    r.estado = 201 ∧ ∃ c, r.cuerpo = .cancion c ∧ c.id = i := by
  unfold idAsignado at h
  split at h
  · rename_i heq1 heq2
    cases heq1
    cases heq2
    exact ⟨rfl, _, rfl, Option.some.inj h⟩
  · exact absurd h (by simp)

/-- One request: the sequence does not go back, and an id assigned by the request is
the value the sequence moved to, above the value it had. -/
theorem atender_secuencia (enlace : Enlace) (bd : BaseDatos) (p : Peticion) :
    bd.secuencia ≤ (atender enlace bd p).2.secuencia ∧
    ∀ i, idAsignado p (atender enlace bd p).1 = some i →
      (bd.secuencia : Int) < i ∧ i ≤ ((atender enlace bd p).2.secuencia : Int) := by
  cases p with
  | listar =>
    refine ⟨by simp only [atender, get_lista_estado]; exact le_refl _, ?_⟩
    intro i h; simp [idAsignado] at h
  | obtener id =>
    refine ⟨by simp only [atender, get_id_estado]; exact le_refl _, ?_⟩
    intro i h; simp [idAsignado] at h
  | actualizar id cuerpo =>
    refine ⟨by simp only [atender, secuencia_put]; exact le_refl _, ?_⟩
    intro i h; simp [idAsignado] at h
  | eliminar id =>
    refine ⟨by simp only [atender, secuencia_delete]; exact le_refl _, ?_⟩
    intro i h; simp [idAsignado] at h
  | crear cuerpo =>
    simp only [atender]
    rcases post_casos enlace bd cuerpo with ⟨hno, -, hs⟩ | ⟨t, a, -, -, -, hpost⟩
    · refine ⟨hs, ?_⟩
      intro i h
      exact absurd (idAsignado_crear cuerpo _ i h).1 hno
    · rw [hpost]
      refine ⟨Nat.le_succ _, ?_⟩
      intro i h
      obtain ⟨-, c, hc, hi⟩ := idAsignado_crear cuerpo _ i h
      simp only [Cuerpo.cancion.injEq] at hc
      subst hc
      subst hi
      simp only [Nat.cast_add, Nat.cast_one]
      omega

theorem idsAsignados_cons (bd : BaseDatos) (enlace : Enlace) (p : Peticion)
    (ps : List (Enlace × Peticion)) :
    idsAsignados bd ((enlace, p) :: ps) =
      match idAsignado p (atender enlace bd p).1 with
      | some i => i :: idsAsignados (atender enlace bd p).2 ps
      | none => idsAsignados (atender enlace bd p).2 ps := rfl

theorem idsAsignados_crecientes (ps : List (Enlace × Peticion)) :
    ∀ bd : BaseDatos,
      (∀ i ∈ idsAsignados bd ps, (bd.secuencia : Int) < i) ∧
      (idsAsignados bd ps).Pairwise (fun x y => x < y) := by
  induction ps with
  | nil => intro bd; exact ⟨fun i h => by simp [idsAsignados] at h, List.Pairwise.nil⟩
  | cons x xs ih =>
    intro bd
    obtain ⟨enlace, p⟩ := x
    obtain ⟨hs, hid⟩ := atender_secuencia enlace bd p
    obtain ⟨ih1, ih2⟩ := ih (atender enlace bd p).2
    rw [idsAsignados_cons]
    cases hi : idAsignado p (atender enlace bd p).1 with
    | none =>
      refine ⟨?_, ih2⟩
      intro i h
      have := ih1 i h
      omega
    | some i =>
      obtain ⟨h1, h2⟩ := hid i hi
      refine ⟨?_, ?_⟩
      · intro j hj
        rcases List.mem_cons.1 hj with hj | hj
        · rw [hj]; exact h1
        · have := ih1 j hj
          omega
      · refine List.Pairwise.cons ?_ ih2
        intro j hj
        have := ih1 j hj
        omega

/-- C8: over every sequence of requests to the handlers run from the empty table,
each under any state of the link, the ids returned by the creates answered with 201
are strictly increasing in the order of the creates: each is greater than every id
assigned before it, whether or not the earlier song was deleted meanwhile. -/
theorem ids_estrictamente_crecientes (ps : List (Enlace × Peticion)) :
    (idsAsignados vacia ps).Pairwise (fun x y => x < y) :=
  (idsAsignados_crecientes ps vacia).2

/-- A run on the empty table: two creates, the delete of the first song, a rejected
create and a third create; the assigned ids are 1, 2 and 3. -/
theorem idsAsignados_ejemplo :
    idsAsignados vacia
      [(.operativo servidorDecimal, .crear (cuerpoTexto "a" "b" none)),
       (.operativo servidorDecimal, .crear (cuerpoTexto "c" "d" none)),
       (.operativo servidorDecimal, .eliminar "1"),
       (.operativo servidorDecimal, .crear (cuerpoTexto "" "d" none)),
       (.caido, .crear (cuerpoTexto "e" "f" none)),
       (.operativo servidorDecimal, .crear (cuerpoTexto "e" "f" none))] = [1, 2, 3] := by
  decide

/-! ## Storage failures and malformed ids -/

/-- C11: in each of the five handlers, for every store, link state, path parameter,
body and error, when the query of the handler throws that error the response is the
500 response with the body whose `error` field is 'Error interno del servidor': the
same constant whatever the error was, different from the 404 and the 400 responses.
For POST and PUT the query is the one made once the body has passed the validation. -/
theorem fallo_almacenamiento_uniforme (enlace : Enlace) (bd : BaseDatos) (id : String)
    (cuerpo : CuerpoSolicitud) (e : ErrorBD) :
    ((poolConexion_query enlace bd .seleccionarTodas).1 = .error e →
      (get_api_canciones enlace bd).1 = errorInterno) ∧
    ((poolConexion_query enlace bd (.seleccionarPorId id)).1 = .error e →
      (get_api_canciones_id enlace bd id).1 = errorInterno) ∧
    (esVerdadero cuerpo.titulo = true → esVerdadero cuerpo.artista = true →
      (poolConexion_query enlace bd (.insertar (prepareValue cuerpo.titulo)
        (prepareValue cuerpo.artista) (prepareValue cuerpo.letra))).1 = .error e →
      (post_api_canciones enlace bd cuerpo).1 = errorInterno) ∧
    (esVerdadero cuerpo.titulo = true → esVerdadero cuerpo.artista = true →
      (poolConexion_query enlace bd (.actualizar (prepareValue cuerpo.titulo)
        (prepareValue cuerpo.artista) (prepareValue cuerpo.letra) id)).1 = .error e →
      (put_api_canciones_id enlace bd id cuerpo).1 = errorInterno) ∧
    ((poolConexion_query enlace bd (.eliminar id)).1 = .error e →
      (delete_api_canciones_id enlace bd id).1 = errorInterno) ∧
    errorInterno = ⟨500, .error "Error interno del servidor"⟩ ∧
    errorInterno ≠ noEncontrada ∧ errorInterno ≠ datosObligatorios := by
  refine ⟨?_, ?_, ?_, ?_, ?_, rfl, by decide, by decide⟩
  · intro h
    unfold get_api_canciones
    generalize poolConexion_query enlace bd .seleccionarTodas = r at h
    obtain ⟨r1, r2⟩ := r
    simp only at h
    subst h
    rfl
  · intro h
    unfold get_api_canciones_id
    generalize poolConexion_query enlace bd (.seleccionarPorId id) = r at h
    obtain ⟨r1, r2⟩ := r
    simp only at h
    subst h
    rfl
  · intro ht ha h
    unfold post_api_canciones
    rw [valido_general cuerpo ht ha]
    generalize poolConexion_query enlace bd (.insertar (prepareValue cuerpo.titulo)
        (prepareValue cuerpo.artista) (prepareValue cuerpo.letra)) = r at h
    obtain ⟨r1, r2⟩ := r
    simp only at h
    subst h
    rfl
  · intro ht ha h
    unfold put_api_canciones_id
    rw [valido_general cuerpo ht ha]
    generalize poolConexion_query enlace bd (.actualizar (prepareValue cuerpo.titulo)
        (prepareValue cuerpo.artista) (prepareValue cuerpo.letra) id) = r at h
    obtain ⟨r1, r2⟩ := r
    simp only at h
    subst h
    rfl
  · intro h
    unfold delete_api_canciones_id
    generalize poolConexion_query enlace bd (.eliminar id) = r at h
    obtain ⟨r1, r2⟩ := r
    simp only at h
    subst h
    rfl

/-- Witness of C11: the link is down, so each of the five queries throws. -/
theorem fallo_almacenamiento_uniforme_testigo :
    (poolConexion_query .caido ⟨[⟨1, "a", "b", none⟩], 1⟩ .seleccionarTodas).1 =
      .error .conexion ∧
    esVerdadero (cuerpoTexto "c" "d" none).titulo = true ∧
    esVerdadero (cuerpoTexto "c" "d" none).artista = true ∧
    (get_api_canciones .caido ⟨[⟨1, "a", "b", none⟩], 1⟩).1 = errorInterno ∧
    (get_api_canciones_id .caido ⟨[⟨1, "a", "b", none⟩], 1⟩ "1").1 = errorInterno ∧
    (post_api_canciones .caido ⟨[⟨1, "a", "b", none⟩], 1⟩ (cuerpoTexto "c" "d" none)).1 =
      errorInterno ∧
    (put_api_canciones_id .caido ⟨[⟨1, "a", "b", none⟩], 1⟩ "1"
      (cuerpoTexto "c" "d" none)).1 = errorInterno ∧
    (delete_api_canciones_id .caido ⟨[⟨1, "a", "b", none⟩], 1⟩ "1").1 = errorInterno := by
  have h := fallo_almacenamiento_uniforme .caido ⟨[⟨1, "a", "b", none⟩], 1⟩ "1"
    (cuerpoTexto "c" "d" none) .conexion
  exact ⟨rfl, by decide, by decide, h.1 rfl, h.2.1 rfl, h.2.2.1 (by decide) (by decide) rfl,
    h.2.2.2.1 (by decide) (by decide) rfl, h.2.2.2.2.1 rfl⟩

/-- C12, as stated, fails: with the link up, on a server that reads decimal literals
only and on a server that also reads other literals, the path parameter 'abc' is read
as an integer by neither, and GET, PUT (with a valid body) and DELETE answer the 500
response of a storage failure, which is not the 404 not-found response. -/
theorem id_malformado_contraejemplo :
    leerId servidorDecimal "abc" = none ∧ leerId servidorExtendido "abc" = none ∧
    (get_api_canciones_id (.operativo servidorDecimal) ⟨[⟨1, "a", "b", none⟩], 1⟩ "abc").1 =
      errorInterno ∧
    (put_api_canciones_id (.operativo servidorDecimal) ⟨[⟨1, "a", "b", none⟩], 1⟩ "abc"
      (cuerpoTexto "c" "d" none)).1 = errorInterno ∧
    (delete_api_canciones_id (.operativo servidorDecimal) ⟨[⟨1, "a", "b", none⟩], 1⟩
      "abc").1 = errorInterno ∧
    (get_api_canciones_id (.operativo servidorExtendido) ⟨[⟨1, "a", "b", none⟩], 1⟩
      "abc").1 = errorInterno ∧
    (put_api_canciones_id (.operativo servidorExtendido) ⟨[⟨1, "a", "b", none⟩], 1⟩ "abc"
      (cuerpoTexto "c" "d" none)).1 = errorInterno ∧
    (delete_api_canciones_id (.operativo servidorExtendido) ⟨[⟨1, "a", "b", none⟩], 1⟩
      "abc").1 = errorInterno ∧
    errorInterno.estado = 500 ∧ errorInterno ≠ noEncontrada := by
  decide

/-- The path parameters `0x1F` and `1_000` are read as ids by a server that reads such
literals and by no server that reads decimal literals only: the first server answers
200 to the GET of a stored song, the second the 500 response. -/
theorem id_segun_servidor :
    (get_api_canciones_id (.operativo servidorExtendido)
      ⟨[⟨31, "a", "b", none⟩, ⟨1000, "c", "d", none⟩], 1000⟩ "0x1F").1 =
      ⟨200, .cancion ⟨31, "a", "b", none⟩⟩ ∧
    (get_api_canciones_id (.operativo servidorExtendido)
      ⟨[⟨31, "a", "b", none⟩, ⟨1000, "c", "d", none⟩], 1000⟩ "1_000").1 =
      ⟨200, .cancion ⟨1000, "c", "d", none⟩⟩ ∧
    (get_api_canciones_id (.operativo servidorDecimal)
      ⟨[⟨31, "a", "b", none⟩, ⟨1000, "c", "d", none⟩], 1000⟩ "0x1F").1 = errorInterno ∧
    (get_api_canciones_id (.operativo servidorDecimal)
      ⟨[⟨31, "a", "b", none⟩, ⟨1000, "c", "d", none⟩], 1000⟩ "1_000").1 = errorInterno := by
  decide

/-- C12, amended: with the link up, for every server and every path parameter that
this server does not read as an integer identifier (a text without a decimal digit,
such as 'abc', is read by no server), GET, PUT (with a body that passes the
validation) and DELETE return the 500 response of a storage failure, not the 404
not-found response; the error is caught in the handler, which still returns a
response, and the store is left as it was. -/
theorem id_malformado_error_interno (srv : Servidor) (bd : BaseDatos) (tok : String)
    (cuerpo : CuerpoSolicitud) (h : leerId srv tok = none)
    (ht : esVerdadero cuerpo.titulo = true) (ha : esVerdadero cuerpo.artista = true) :
    get_api_canciones_id (.operativo srv) bd tok = (errorInterno, bd) ∧
    put_api_canciones_id (.operativo srv) bd tok cuerpo = (errorInterno, bd) ∧
    delete_api_canciones_id (.operativo srv) bd tok = (errorInterno, bd) ∧
    errorInterno.estado = 500 ∧ errorInterno ≠ noEncontrada ∧
    ∀ (otro : Servidor) (s : String), s.toList.any Char.isDigit = false →
      leerId otro s = none :=
  ⟨get_id_no_leido srv bd tok h, put_no_leido srv bd tok cuerpo h ht ha,
    delete_no_leido srv bd tok h, rfl, by decide, fun otro s hs => leerId_sin_digito otro s hs⟩

/-- Witness of the amended C12: the path parameter '12x' on a server that reads other
literals besides the decimal ones, with a store that holds song 12. -/
theorem id_malformado_error_interno_testigo :
    leerId servidorExtendido "12x" = none ∧
    get_api_canciones_id (.operativo servidorExtendido) ⟨[⟨12, "a", "b", none⟩], 12⟩ "12x" =
      (errorInterno, ⟨[⟨12, "a", "b", none⟩], 12⟩) ∧
    put_api_canciones_id (.operativo servidorExtendido) ⟨[⟨12, "a", "b", none⟩], 12⟩ "12x"
      (cuerpoTexto "c" "d" none) = (errorInterno, ⟨[⟨12, "a", "b", none⟩], 12⟩) ∧
    delete_api_canciones_id (.operativo servidorExtendido) ⟨[⟨12, "a", "b", none⟩], 12⟩
      "12x" = (errorInterno, ⟨[⟨12, "a", "b", none⟩], 12⟩) ∧
    errorInterno.estado = 500 ∧ errorInterno ≠ noEncontrada ∧
    ∀ (otro : Servidor) (s : String), s.toList.any Char.isDigit = false →
      leerId otro s = none :=
  ⟨by decide,
    id_malformado_error_interno servidorExtendido ⟨[⟨12, "a", "b", none⟩], 12⟩ "12x"
      (cuerpoTexto "c" "d" none) (by decide) (by decide) (by decide)⟩

/-! ## Replacement, the scenario, and frames -/

/-- C13, as stated, fails: with the link up, a `PUT /api/canciones/4` that omits `letra`
and whose `titulo` is a non-empty text that holds the character U+0000 answers the 500
response, and the stored song keeps the `letra` it had. -/
theorem actualizar_sin_letra_la_anula_contraejemplo :
    put_api_canciones_id (.operativo servidorDecimal)
        ⟨[⟨4, "Yesterday", "The Beatles", some "All my troubles"⟩], 4⟩ "4"
        (cuerpoTexto "H\x00oy" "Nadie" none) =
      (errorInterno, ⟨[⟨4, "Yesterday", "The Beatles", some "All my troubles"⟩], 4⟩) ∧
    errorInterno.estado = 500 := by
  decide

/-- C13, amended: with the link up, whatever the server, for a store that holds a song
with id `i` (whatever its `letra`), a path parameter that the server reads as `i` and
a body with non-empty text `titulo` and `artista` without U+0000 and no `letra`,
`PUT /api/canciones/i` answers 200 with a song whose `letra` is null, a song with id
`i` is still stored, and every stored song with id `i` has `letra` null and the new
`titulo` and `artista`. -/
theorem actualizar_sin_letra_la_anula (srv : Servidor) (bd : BaseDatos) (i : Int)
    (tok : String) (t a : String)
    (htok : leerId srv tok = some i) (hi : i ∈ ids bd) (ht : t ≠ "") (ha : a ≠ "")
    (hnt : sinNulo t = true) (hna : sinNulo a = true) :
    (put_api_canciones_id (.operativo srv) bd tok (cuerpoTexto t a none)).1 =
      ⟨200, .cancion ⟨i, t, a, none⟩⟩ ∧
    i ∈ ids (put_api_canciones_id (.operativo srv) bd tok (cuerpoTexto t a none)).2 ∧
    ∀ c ∈ (put_api_canciones_id (.operativo srv) bd tok (cuerpoTexto t a none)).2.filas,
      c.id = i → c.letra = none ∧ c.titulo = t ∧ c.artista = a := by
  have hadm : cuerpoAdmitido (cuerpoTexto t a none) = true := by
    rw [cuerpoAdmitido_texto, hnt, hna]
    rfl
  have hne := conId_presente hi
  rw [put_texto srv bd tok i t a none htok hne ht ha hadm]
  refine ⟨by simp only [primeraFila_actualizada i bd.filas t a none hne], ?_, ?_⟩
  · obtain ⟨c, hc, he⟩ := mem_ids.1 hi
    refine mem_ids.2 ⟨⟨c.id, t, a, none⟩, ?_, he⟩
    refine List.mem_map.2 ⟨c, hc, ?_⟩
    simp [he]
  · intro c hc hci
    obtain ⟨c0, hc0, he⟩ := List.mem_map.1 hc
    by_cases h0 : (c0.id == i) = true
    · rw [if_pos h0] at he
      subst he
      exact ⟨rfl, rfl, rfl⟩
    · rw [if_neg h0] at he
      subst he
      exact absurd (by simpa using hci) h0

/-- Witness of the amended C13: song 4 has lyrics before the update and none after. -/
theorem actualizar_sin_letra_la_anula_testigo :
    leerId servidorDecimal "4" = some 4 ∧
    (4 : Int) ∈ ids ⟨[⟨4, "Yesterday", "The Beatles", some "All my troubles"⟩], 4⟩ ∧
    sinNulo "Hoy" = true ∧ sinNulo "Nadie" = true ∧
    (put_api_canciones_id (.operativo servidorDecimal)
        ⟨[⟨4, "Yesterday", "The Beatles", some "All my troubles"⟩], 4⟩ "4"
        (cuerpoTexto "Hoy" "Nadie" none)).1 = ⟨200, .cancion ⟨4, "Hoy", "Nadie", none⟩⟩ ∧
    (4 : Int) ∈ ids (put_api_canciones_id (.operativo servidorDecimal)
        ⟨[⟨4, "Yesterday", "The Beatles", some "All my troubles"⟩], 4⟩ "4"
        (cuerpoTexto "Hoy" "Nadie" none)).2 ∧
    ∀ c ∈ (put_api_canciones_id (.operativo servidorDecimal)
        ⟨[⟨4, "Yesterday", "The Beatles", some "All my troubles"⟩], 4⟩ "4"
        (cuerpoTexto "Hoy" "Nadie" none)).2.filas,
      c.id = 4 → c.letra = none ∧ c.titulo = "Hoy" ∧ c.artista = "Nadie" :=
  ⟨by decide, by decide, by decide, by decide,
    actualizar_sin_letra_la_anula servidorDecimal
      ⟨[⟨4, "Yesterday", "The Beatles", some "All my troubles"⟩], 4⟩ 4 "4" "Hoy" "Nadie"
      (by decide) (by decide) (by decide) (by decide) (by decide) (by decide)⟩

/-- C14: the scenario on the empty table, link up, whatever the server: the create of
Imagine answers 201 with id 1; the list answers 200 with exactly that song; the update
of id 1 answers 200 with the new title; the delete of id 1 answers 200 with a
confirmation message, not a song; the get of id 1 then answers 404. -/
theorem escenario_imagine (srv : Servidor) :
    (ejecutar vacia
      [(.operativo srv, .crear (cuerpoTexto "Imagine" "John Lennon" none)),
       (.operativo srv, .listar),
       (.operativo srv,
         .actualizar "1" (cuerpoTexto "Imagine (Remastered)" "John Lennon" none)),
       (.operativo srv, .eliminar "1"),
       (.operativo srv, .obtener "1")]).1 =
      [⟨201, .cancion ⟨1, "Imagine", "John Lennon", none⟩⟩,
       ⟨200, .canciones [⟨1, "Imagine", "John Lennon", none⟩]⟩,
       ⟨200, .cancion ⟨1, "Imagine (Remastered)", "John Lennon", none⟩⟩,
       ⟨200, .mensaje "Canción eliminada correctamente"⟩,
       ⟨404, .error "Canción no encontrada"⟩] := by
  rfl

theorem ids_reescritas (i : Int) (t a : String) (l : Option String) (filas : List Cancion) :
    (filas.map (fun c => if c.id == i then (⟨c.id, t, a, l⟩ : Cancion) else c)).map (·.id) =
      filas.map (·.id) := by
  rw [List.map_map]
  apply List.map_congr_left
  intro c _
  simp only [Function.comp]
  split <;> rfl

theorem sinId_reescritas (i : Int) (t a : String) (l : Option String) (filas : List Cancion) :
    sinId i (filas.map (fun c => if c.id == i then (⟨c.id, t, a, l⟩ : Cancion) else c)) =
      sinId i filas := by
  induction filas with
  | nil => rfl
  | cons c cs ih =>
    simp only [sinId, bne_iff_ne, ne_eq, beq_iff_eq] at ih ⊢
    by_cases h : c.id = i
    · simp [List.filter_cons, h, ih]
    · simp [List.filter_cons, h, ih]

/-- A `PUT /api/canciones/:id` answered with 200: the rows of the id it names are
rewritten with the prepared values and nothing else changes. -/
theorem put_200 (enlace : Enlace) (bd : BaseDatos) (tok : String) (i : Int)
    (cuerpo : CuerpoSolicitud) (htok : int4in tok = some i)
    (h : (put_api_canciones_id enlace bd tok cuerpo).1.estado = 200) :
    ∃ t a : String, conId i bd.filas ≠ [] ∧
      put_api_canciones_id enlace bd tok cuerpo =
        (⟨200, .cancion ⟨i, t, a, prepareValue cuerpo.letra⟩⟩,
          ⟨bd.filas.map (fun c => if c.id == i then ⟨c.id, t, a, prepareValue cuerpo.letra⟩
            else c), bd.secuencia⟩) := by
  by_cases hv : esVerdadero cuerpo.titulo = true ∧ esVerdadero cuerpo.artista = true
  · obtain ⟨t, ht, -⟩ := prepareValue_verdadero _ hv.1
    obtain ⟨a, ha, -⟩ := prepareValue_verdadero _ hv.2
    cases enlace with
    | caido =>
      simp [put_api_canciones_id, poolConexion_query, hv.1, hv.2, errorInterno] at h
    | operativo srv =>
      have hl := leerId_decimal srv tok i htok
      by_cases hadm : cuerpoAdmitido cuerpo = true
      · by_cases hvac : conId i bd.filas = []
        · rw [put_ausente srv bd tok i cuerpo hl hvac hv.1 hv.2 hadm] at h
          simp [noEncontrada] at h
        · refine ⟨t, a, hvac, ?_⟩
          have hp := primeraFila_actualizada i bd.filas t a (prepareValue cuerpo.letra) hvac
          rw [put_presente srv bd tok i cuerpo t a hl hvac hv.1 hv.2 hadm ht ha, hp]
      · rw [Bool.not_eq_true] at hadm
        rw [put_rechazado srv bd tok cuerpo hv.1 hv.2 hadm] at h
        simp [errorInterno] at h
  · have hf : esVerdadero cuerpo.titulo = false ∨ esVerdadero cuerpo.artista = false := by
      by_cases h1 : esVerdadero cuerpo.titulo = true
      · right
        simpa using fun h2 => hv ⟨h1, h2⟩
      · left
        simpa using h1
    rw [put_invalido enlace bd tok cuerpo hf] at h
    simp [datosObligatorios] at h

/-- A `DELETE /api/canciones/:id` answered with 200 removes the rows of the id it names. -/
theorem delete_200 (enlace : Enlace) (bd : BaseDatos) (tok : String) (i : Int)
    (htok : int4in tok = some i)
    (h : (delete_api_canciones_id enlace bd tok).1.estado = 200) :
    conId i bd.filas ≠ [] ∧
      (delete_api_canciones_id enlace bd tok).2 = ⟨sinId i bd.filas, bd.secuencia⟩ := by
  cases enlace with
  | caido => simp [delete_api_canciones_id, poolConexion_query, errorInterno] at h
  | operativo srv =>
    rw [delete_operativo srv bd tok i (leerId_decimal srv tok i htok)] at h ⊢
    refine ⟨?_, rfl⟩
    intro hvac
    simp [hvac, noEncontrada] at h

/-- C15: for every store, link state, server and path parameter that reads as `i`: an update
answered with 200 returns a song with id `i`, keeps the id of every row (the target
still has id `i`), keeps every song with another id as it was and keeps the sequence;
a delete answered with 200 leaves no song with id `i` and keeps every song with another
id as it was; the list and the get return the store as it was. -/
theorem marco_de_los_manejadores (enlace : Enlace) (bd : BaseDatos) (tok : String) (i : Int)
    (cuerpo : CuerpoSolicitud) (htok : int4in tok = some i) :
    ((put_api_canciones_id enlace bd tok cuerpo).1.estado = 200 →
      (∃ c, (put_api_canciones_id enlace bd tok cuerpo).1.cuerpo = .cancion c ∧ c.id = i) ∧
      ids (put_api_canciones_id enlace bd tok cuerpo).2 = ids bd ∧
      i ∈ ids (put_api_canciones_id enlace bd tok cuerpo).2 ∧
      sinId i (put_api_canciones_id enlace bd tok cuerpo).2.filas = sinId i bd.filas ∧
      (put_api_canciones_id enlace bd tok cuerpo).2.secuencia = bd.secuencia) ∧
    ((delete_api_canciones_id enlace bd tok).1.estado = 200 →
      i ∈ ids bd ∧
      conId i (delete_api_canciones_id enlace bd tok).2.filas = [] ∧
      (delete_api_canciones_id enlace bd tok).2.filas = sinId i bd.filas ∧
      sinId i (delete_api_canciones_id enlace bd tok).2.filas = sinId i bd.filas ∧
      (delete_api_canciones_id enlace bd tok).2.secuencia = bd.secuencia) ∧
    (get_api_canciones enlace bd).2 = bd ∧
    (get_api_canciones_id enlace bd tok).2 = bd := by
  refine ⟨?_, ?_, get_lista_estado enlace bd, get_id_estado enlace bd tok⟩
  · intro h
    obtain ⟨t, a, hne, hput⟩ := put_200 enlace bd tok i cuerpo htok h
    have hpres : i ∈ ids bd := by
      by_contra hno
      exact hne (conId_ausente hno)
    rw [hput]
    refine ⟨⟨_, rfl, rfl⟩, ?_, ?_, sinId_reescritas i t a _ bd.filas, rfl⟩
    · simp only [ids]
      exact ids_reescritas i t a _ bd.filas
    · simp only [ids]
      rw [ids_reescritas i t a _ bd.filas]
      exact hpres
  · intro h
    obtain ⟨hne, hdel⟩ := delete_200 enlace bd tok i htok h
    rw [hdel]
    refine ⟨?_, conId_sinId i bd.filas, rfl, ?_, rfl⟩
    · by_contra hno
      exact hne (conId_ausente hno)
    · simp [sinId, List.filter_filter]

/-- Witness of C15: update and delete of song 2 in a store of three songs. -/
theorem marco_de_los_manejadores_testigo :
    int4in "2" = some 2 ∧
    (put_api_canciones_id (.operativo servidorDecimal)
      ⟨[⟨1, "a", "b", none⟩, ⟨2, "c", "d", some "e"⟩, ⟨3, "f", "g", none⟩], 3⟩ "2"
      (cuerpoTexto "h" "i" none)).1.estado = 200 ∧
    (delete_api_canciones_id (.operativo servidorDecimal)
      ⟨[⟨1, "a", "b", none⟩, ⟨2, "c", "d", some "e"⟩, ⟨3, "f", "g", none⟩], 3⟩ "2").1.estado
        = 200 ∧
    sinId 2 (put_api_canciones_id (.operativo servidorDecimal)
      ⟨[⟨1, "a", "b", none⟩, ⟨2, "c", "d", some "e"⟩, ⟨3, "f", "g", none⟩], 3⟩ "2"
      (cuerpoTexto "h" "i" none)).2.filas =
      sinId 2 [⟨1, "a", "b", none⟩, ⟨2, "c", "d", some "e"⟩, ⟨3, "f", "g", none⟩] ∧
    (delete_api_canciones_id (.operativo servidorDecimal)
      ⟨[⟨1, "a", "b", none⟩, ⟨2, "c", "d", some "e"⟩, ⟨3, "f", "g", none⟩], 3⟩ "2").2.filas =
      sinId 2 [⟨1, "a", "b", none⟩, ⟨2, "c", "d", some "e"⟩, ⟨3, "f", "g", none⟩] := by
  have h := marco_de_los_manejadores (.operativo servidorDecimal)
    ⟨[⟨1, "a", "b", none⟩, ⟨2, "c", "d", some "e"⟩, ⟨3, "f", "g", none⟩], 3⟩ "2" 2
    (cuerpoTexto "h" "i" none) (by decide)
  exact ⟨by decide, by decide, by decide, (h.1 (by decide)).2.2.2.1, (h.2.1 (by decide)).2.2.1⟩

/-! ## The client -/

theorem efecto_no_se_repite (antes ahora : App) : efectoSeRepite antes ahora = false := rfl

theorem renderizar_eq (c : Cliente) (nuevo : App) : renderizar c nuevo = ⟨nuevo, c.peticiones⟩ := rfl

/-- The press on 'Try Again' in any state: the error is cleared and `loading` is set,
and the number of requests issued is what it was. -/
theorem tryAgain_sin_peticion (c : Cliente) :
    paso c .tryAgain = ⟨{ c.app with error := none, loading := true }, c.peticiones⟩ := rfl

/-- C16, on the code: after the mount and a failed fetch the error screen is shown;
the press on 'Try Again' clears the error and sets `loading`, but the effect, whose
dependency array is empty, does not run again: the number of requests issued stays 1,
the one of the mount, and the view is the loading one. -/
theorem try_again_no_lanza_peticion :
    vista (correr montar [.respuestaFallida]).app = .pantallaError ∧
    (correr montar [.respuestaFallida]).peticiones = 1 ∧
    (correr montar [.respuestaFallida, .tryAgain]).app.error = none ∧
    (correr montar [.respuestaFallida, .tryAgain]).app.loading = true ∧
    (correr montar [.respuestaFallida, .tryAgain]).peticiones = 1 ∧
    vista (correr montar [.respuestaFallida, .tryAgain]).app = .cargando := by
  decide

/-- C17: the `open` of a `Dialog` is its prop when the prop is defined and the state
cell, `false` at first, otherwise; `handleOpenChange(v)` calls `onOpenChange(v)` and
keeps the state cell when `onOpenChange` is given, sets the state cell to `v` and calls
nothing when `onOpenChange` is absent and the prop is undefined, and does nothing when
`onOpenChange` is absent and the prop is defined. -/
theorem dialog_estado_abierto (p : ValorJS) (cb interno v : Bool) :
    (Dialog.inicial p cb).internalOpen = false ∧
    (p ≠ .indefinido → Dialog.abierto ⟨p, cb, interno⟩ = p) ∧
    Dialog.abierto ⟨.indefinido, cb, interno⟩ = .booleano interno ∧
    handleOpenChange ⟨p, true, interno⟩ v = (⟨p, true, interno⟩, [v]) ∧
    handleOpenChange ⟨.indefinido, false, interno⟩ v = (⟨.indefinido, false, v⟩, []) ∧
    (p ≠ .indefinido →
      handleOpenChange ⟨p, false, interno⟩ v = (⟨p, false, interno⟩, [])) := by
  refine ⟨rfl, ?_, rfl, rfl, rfl, ?_⟩
  · intro hp
    simp [Dialog.abierto, isControlled, hp]
  · intro hp
    simp [handleOpenChange, isControlled, hp]

/-- Witness of C17: a `Dialog` whose prop `open` is `true`. -/
theorem dialog_estado_abierto_testigo :
    ValorJS.booleano true ≠ .indefinido ∧
    Dialog.abierto ⟨.booleano true, false, false⟩ = .booleano true ∧
    handleOpenChange ⟨.booleano true, false, false⟩ false =
      (⟨.booleano true, false, false⟩, []) ∧
    handleOpenChange ⟨.booleano true, true, false⟩ false =
      (⟨.booleano true, true, false⟩, [false]) :=
  ⟨by decide,
    (dialog_estado_abierto (.booleano true) false false false).2.1 (by decide),
    (dialog_estado_abierto (.booleano true) false false false).2.2.2.2.2 (by decide),
    (dialog_estado_abierto (.booleano true) false false false).2.2.2.1⟩

theorem errorConocido_paso (c : Cliente) (e : Evento) (h : ErrorConocido c) :
    ErrorConocido (paso c e) := by
  cases e with
  | intervalo => exact h
  | respuestaOk data => exact h
  | respuestaFallida => exact Or.inr rfl
  | tryAgain => exact Or.inl rfl
  | abrirDetalle song => exact h
  | cerrarDetalle => exact h

theorem modalCoherente_paso (c : Cliente) (e : Evento) (h : ModalCoherente c) :
    ModalCoherente (paso c e) := by
  cases e with
  | intervalo => exact h
  | respuestaOk data => exact h
  | respuestaFallida => exact h
  | tryAgain => exact h
  | abrirDetalle song =>
    show (true = true ↔ some song ≠ none)
    simp
  | cerrarDetalle =>
    show (false = true ↔ (none : Option Cancion) ≠ none)
    simp

theorem invariantes_correr (es : List Evento) :
    ∀ c : Cliente, ErrorConocido c → ModalCoherente c →
      ErrorConocido (correr c es) ∧ ModalCoherente (correr c es) := by
  induction es with
  | nil => intro c h1 h2; exact ⟨h1, h2⟩
  | cons e es ih =>
    intro c h1 h2
    exact ih (paso c e) (errorConocido_paso c e h1) (modalCoherente_paso c e h2)

theorem invariantes_montar : ErrorConocido montar ∧ ModalCoherente montar :=
  ⟨Or.inl rfl, by simp [ModalCoherente, montar, App.inicial]⟩

/-- C18: in every state the component reaches from its mount in which `error` is not
null, an ok response to `fetchCanciones` replaces `canciones` by the data received and
sets `loading` to false but leaves `error` as it was, so that the render still selects
the error screen; no event other than the press on 'Try Again' makes `error` null, and
that press does. -/
theorem error_persistente (es : List Evento) (data : List Cancion)
    (h : (correr montar es).app.error ≠ none) :
    (paso (correr montar es) (.respuestaOk data)).app.canciones = data ∧
    (paso (correr montar es) (.respuestaOk data)).app.loading = false ∧
    (paso (correr montar es) (.respuestaOk data)).app.error = (correr montar es).app.error ∧
    vista (paso (correr montar es) (.respuestaOk data)).app = .pantallaError ∧
    (∀ e : Evento, e ≠ .tryAgain → (paso (correr montar es) e).app.error ≠ none) ∧
    (paso (correr montar es) .tryAgain).app.error = none := by
  have hinv := (invariantes_correr es montar invariantes_montar.1 invariantes_montar.2).1
  have herr : (correr montar es).app.error = some mensajeError := by
    rcases hinv with h0 | h1
    · exact absurd h0 h
    · exact h1
  refine ⟨rfl, rfl, rfl, ?_, ?_, rfl⟩
  · show vista (fetchCanciones_ok data (correr montar es).app) = .pantallaError
    simp only [vista, fetchCanciones_ok, herr]
    decide
  · intro e he
    cases e with
    | intervalo => exact h
    | respuestaOk d => exact h
    | respuestaFallida =>
      show (some mensajeError : Option String) ≠ none
      simp
    | tryAgain => exact absurd rfl he
    | abrirDetalle song => exact h
    | cerrarDetalle => exact h

/-- Witness of C18: the first fetch fails, then a poll succeeds with one song. -/
theorem error_persistente_testigo :
    (correr montar [.respuestaFallida, .intervalo]).app.error ≠ none ∧
    (paso (correr montar [.respuestaFallida, .intervalo])
      (.respuestaOk [⟨1, "Imagine", "John Lennon", none⟩])).app.canciones =
        [⟨1, "Imagine", "John Lennon", none⟩] ∧
    (paso (correr montar [.respuestaFallida, .intervalo])
      (.respuestaOk [⟨1, "Imagine", "John Lennon", none⟩])).app.loading = false ∧
    (paso (correr montar [.respuestaFallida, .intervalo])
      (.respuestaOk [⟨1, "Imagine", "John Lennon", none⟩])).app.error =
        (correr montar [.respuestaFallida, .intervalo]).app.error ∧
    vista (paso (correr montar [.respuestaFallida, .intervalo])
      (.respuestaOk [⟨1, "Imagine", "John Lennon", none⟩])).app = .pantallaError ∧
    (∀ e : Evento, e ≠ .tryAgain →
      (paso (correr montar [.respuestaFallida, .intervalo]) e).app.error ≠ none) ∧
    (paso (correr montar [.respuestaFallida, .intervalo]) .tryAgain).app.error = none :=
  ⟨by decide,
    error_persistente [.respuestaFallida, .intervalo] [⟨1, "Imagine", "John Lennon", none⟩]
      (by decide)⟩

/-- C19: in every state the component reaches from its mount by any sequence of events,
among them `handleOpenSongDetail(song)` and `handleCloseSongDetail()`, `modalVisible` is
true exactly when `selectedSong` is not null; and after `handleOpenSongDetail(song)` the
selected song is that song and the modal is visible. -/
theorem invariante_del_modal (es : List Evento) (song : Cancion) :
    ((correr montar es).app.modalVisible = true ↔ (correr montar es).app.selectedSong ≠ none) ∧
    (paso (correr montar es) (.abrirDetalle song)).app.selectedSong = some song ∧
    (paso (correr montar es) (.abrirDetalle song)).app.modalVisible = true :=
  ⟨(invariantes_correr es montar invariantes_montar.1 invariantes_montar.2).2, rfl, rfl⟩

end Cancionero
